import Mathlib

/-!
Verification of the ARIA block cipher core (RFC 5794) as implemented in
`cipher/aria.c` of the CycloneCRYPTO library.

The 128-bit state is modelled, as in the C code, by four 32-bit words held
as natural numbers; every operation that can overflow 32 bits is reduced
modulo `2 ^ 32` exactly where the C `uint32_t` arithmetic truncates.
Byte sequences (keys, plaintext, ciphertext) are lists of naturals below 256.
-/

set_option maxHeartbeats 4000000
set_option maxRecDepth 100000

namespace Aria

/-- Representation of a 128-bit quantity as four 32-bit big-endian words,
mirroring the `uint32_t[4]` view used throughout `aria.c`. -/
@[ext]
structure Block where
  w0 : Nat
  w1 : Nat
  w2 : Nat
  w3 : Nat
deriving DecidableEq, Repr, Inhabited

/-- Word access `a[i]` on the four-word view (indices taken mod 4 like the
`% 4` arithmetic in the `ROL128` macro). -/
def Block.word (x : Block) : Nat → Nat
  | 0 => x.w0
  | 1 => x.w1
  | 2 => x.w2
  | _ => x.w3

/-- Macro `XOR128(b, a)`: word-wise exclusive or (result is the updated `b`). -/
def xor128 (b a : Block) : Block :=
  ⟨b.w0 ^^^ a.w0, b.w1 ^^^ a.w1, b.w2 ^^^ a.w2, b.w3 ^^^ a.w3⟩

/-- Macro `ROL128(b, a, n)`: rotate the 128-bit quantity `a` left by `n`
bits; the C left shift wraps in `uint32_t`, hence the reduction mod `2 ^ 32`. -/
def rol128 (a : Block) (n : Nat) : Block :=
  ⟨(a.word ((n / 32 + 0) % 4) <<< (n % 32) |||
      a.word ((n / 32 + 1) % 4) >>> (32 - n % 32)) % 2 ^ 32,
   (a.word ((n / 32 + 1) % 4) <<< (n % 32) |||
      a.word ((n / 32 + 2) % 4) >>> (32 - n % 32)) % 2 ^ 32,
   (a.word ((n / 32 + 2) % 4) <<< (n % 32) |||
      a.word ((n / 32 + 3) % 4) >>> (32 - n % 32)) % 2 ^ 32,
   (a.word ((n / 32 + 3) % 4) <<< (n % 32) |||
      a.word ((n / 32 + 0) % 4) >>> (32 - n % 32)) % 2 ^ 32⟩

/-- Macro `X(n)`: byte `n` of the state, big-endian within each word. -/
def X (x : Block) (n : Nat) : Nat :=
  x.word (n / 4) >>> ((3 - n % 4) * 8) &&& 0xFF

/-- Assembly of four bytes into one big-endian 32-bit word, as done by the
`y[i] = s << 24; y[i] |= s' << 16; ...` statement sequences in `aria.c`. -/
def pack (a b c d : Nat) : Nat :=
  a <<< 24 ||| b <<< 16 ||| c <<< 8 ||| d

def sb1Tab : List Nat :=
  [
   0x63, 0x7C, 0x77, 0x7B, 0xF2, 0x6B, 0x6F, 0xC5, 0x30, 0x01, 0x67, 0x2B, 0xFE, 0xD7, 0xAB, 0x76,
   0xCA, 0x82, 0xC9, 0x7D, 0xFA, 0x59, 0x47, 0xF0, 0xAD, 0xD4, 0xA2, 0xAF, 0x9C, 0xA4, 0x72, 0xC0,
   0xB7, 0xFD, 0x93, 0x26, 0x36, 0x3F, 0xF7, 0xCC, 0x34, 0xA5, 0xE5, 0xF1, 0x71, 0xD8, 0x31, 0x15,
   0x04, 0xC7, 0x23, 0xC3, 0x18, 0x96, 0x05, 0x9A, 0x07, 0x12, 0x80, 0xE2, 0xEB, 0x27, 0xB2, 0x75,
   0x09, 0x83, 0x2C, 0x1A, 0x1B, 0x6E, 0x5A, 0xA0, 0x52, 0x3B, 0xD6, 0xB3, 0x29, 0xE3, 0x2F, 0x84,
   0x53, 0xD1, 0x00, 0xED, 0x20, 0xFC, 0xB1, 0x5B, 0x6A, 0xCB, 0xBE, 0x39, 0x4A, 0x4C, 0x58, 0xCF,
   0xD0, 0xEF, 0xAA, 0xFB, 0x43, 0x4D, 0x33, 0x85, 0x45, 0xF9, 0x02, 0x7F, 0x50, 0x3C, 0x9F, 0xA8,
   0x51, 0xA3, 0x40, 0x8F, 0x92, 0x9D, 0x38, 0xF5, 0xBC, 0xB6, 0xDA, 0x21, 0x10, 0xFF, 0xF3, 0xD2,
   0xCD, 0x0C, 0x13, 0xEC, 0x5F, 0x97, 0x44, 0x17, 0xC4, 0xA7, 0x7E, 0x3D, 0x64, 0x5D, 0x19, 0x73,
   0x60, 0x81, 0x4F, 0xDC, 0x22, 0x2A, 0x90, 0x88, 0x46, 0xEE, 0xB8, 0x14, 0xDE, 0x5E, 0x0B, 0xDB,
   0xE0, 0x32, 0x3A, 0x0A, 0x49, 0x06, 0x24, 0x5C, 0xC2, 0xD3, 0xAC, 0x62, 0x91, 0x95, 0xE4, 0x79,
   0xE7, 0xC8, 0x37, 0x6D, 0x8D, 0xD5, 0x4E, 0xA9, 0x6C, 0x56, 0xF4, 0xEA, 0x65, 0x7A, 0xAE, 0x08,
   0xBA, 0x78, 0x25, 0x2E, 0x1C, 0xA6, 0xB4, 0xC6, 0xE8, 0xDD, 0x74, 0x1F, 0x4B, 0xBD, 0x8B, 0x8A,
   0x70, 0x3E, 0xB5, 0x66, 0x48, 0x03, 0xF6, 0x0E, 0x61, 0x35, 0x57, 0xB9, 0x86, 0xC1, 0x1D, 0x9E,
   0xE1, 0xF8, 0x98, 0x11, 0x69, 0xD9, 0x8E, 0x94, 0x9B, 0x1E, 0x87, 0xE9, 0xCE, 0x55, 0x28, 0xDF,
   0x8C, 0xA1, 0x89, 0x0D, 0xBF, 0xE6, 0x42, 0x68, 0x41, 0x99, 0x2D, 0x0F, 0xB0, 0x54, 0xBB, 0x16
  ]

def sb2Tab : List Nat :=
  [
   0xE2, 0x4E, 0x54, 0xFC, 0x94, 0xC2, 0x4A, 0xCC, 0x62, 0x0D, 0x6A, 0x46, 0x3C, 0x4D, 0x8B, 0xD1,
   0x5E, 0xFA, 0x64, 0xCB, 0xB4, 0x97, 0xBE, 0x2B, 0xBC, 0x77, 0x2E, 0x03, 0xD3, 0x19, 0x59, 0xC1,
   0x1D, 0x06, 0x41, 0x6B, 0x55, 0xF0, 0x99, 0x69, 0xEA, 0x9C, 0x18, 0xAE, 0x63, 0xDF, 0xE7, 0xBB,
   0x00, 0x73, 0x66, 0xFB, 0x96, 0x4C, 0x85, 0xE4, 0x3A, 0x09, 0x45, 0xAA, 0x0F, 0xEE, 0x10, 0xEB,
   0x2D, 0x7F, 0xF4, 0x29, 0xAC, 0xCF, 0xAD, 0x91, 0x8D, 0x78, 0xC8, 0x95, 0xF9, 0x2F, 0xCE, 0xCD,
   0x08, 0x7A, 0x88, 0x38, 0x5C, 0x83, 0x2A, 0x28, 0x47, 0xDB, 0xB8, 0xC7, 0x93, 0xA4, 0x12, 0x53,
   0xFF, 0x87, 0x0E, 0x31, 0x36, 0x21, 0x58, 0x48, 0x01, 0x8E, 0x37, 0x74, 0x32, 0xCA, 0xE9, 0xB1,
   0xB7, 0xAB, 0x0C, 0xD7, 0xC4, 0x56, 0x42, 0x26, 0x07, 0x98, 0x60, 0xD9, 0xB6, 0xB9, 0x11, 0x40,
   0xEC, 0x20, 0x8C, 0xBD, 0xA0, 0xC9, 0x84, 0x04, 0x49, 0x23, 0xF1, 0x4F, 0x50, 0x1F, 0x13, 0xDC,
   0xD8, 0xC0, 0x9E, 0x57, 0xE3, 0xC3, 0x7B, 0x65, 0x3B, 0x02, 0x8F, 0x3E, 0xE8, 0x25, 0x92, 0xE5,
   0x15, 0xDD, 0xFD, 0x17, 0xA9, 0xBF, 0xD4, 0x9A, 0x7E, 0xC5, 0x39, 0x67, 0xFE, 0x76, 0x9D, 0x43,
   0xA7, 0xE1, 0xD0, 0xF5, 0x68, 0xF2, 0x1B, 0x34, 0x70, 0x05, 0xA3, 0x8A, 0xD5, 0x79, 0x86, 0xA8,
   0x30, 0xC6, 0x51, 0x4B, 0x1E, 0xA6, 0x27, 0xF6, 0x35, 0xD2, 0x6E, 0x24, 0x16, 0x82, 0x5F, 0xDA,
   0xE6, 0x75, 0xA2, 0xEF, 0x2C, 0xB2, 0x1C, 0x9F, 0x5D, 0x6F, 0x80, 0x0A, 0x72, 0x44, 0x9B, 0x6C,
   0x90, 0x0B, 0x5B, 0x33, 0x7D, 0x5A, 0x52, 0xF3, 0x61, 0xA1, 0xF7, 0xB0, 0xD6, 0x3F, 0x7C, 0x6D,
   0xED, 0x14, 0xE0, 0xA5, 0x3D, 0x22, 0xB3, 0xF8, 0x89, 0xDE, 0x71, 0x1A, 0xAF, 0xBA, 0xB5, 0x81
  ]

def sb3Tab : List Nat :=
  [
   0x52, 0x09, 0x6A, 0xD5, 0x30, 0x36, 0xA5, 0x38, 0xBF, 0x40, 0xA3, 0x9E, 0x81, 0xF3, 0xD7, 0xFB,
   0x7C, 0xE3, 0x39, 0x82, 0x9B, 0x2F, 0xFF, 0x87, 0x34, 0x8E, 0x43, 0x44, 0xC4, 0xDE, 0xE9, 0xCB,
   0x54, 0x7B, 0x94, 0x32, 0xA6, 0xC2, 0x23, 0x3D, 0xEE, 0x4C, 0x95, 0x0B, 0x42, 0xFA, 0xC3, 0x4E,
   0x08, 0x2E, 0xA1, 0x66, 0x28, 0xD9, 0x24, 0xB2, 0x76, 0x5B, 0xA2, 0x49, 0x6D, 0x8B, 0xD1, 0x25,
   0x72, 0xF8, 0xF6, 0x64, 0x86, 0x68, 0x98, 0x16, 0xD4, 0xA4, 0x5C, 0xCC, 0x5D, 0x65, 0xB6, 0x92,
   0x6C, 0x70, 0x48, 0x50, 0xFD, 0xED, 0xB9, 0xDA, 0x5E, 0x15, 0x46, 0x57, 0xA7, 0x8D, 0x9D, 0x84,
   0x90, 0xD8, 0xAB, 0x00, 0x8C, 0xBC, 0xD3, 0x0A, 0xF7, 0xE4, 0x58, 0x05, 0xB8, 0xB3, 0x45, 0x06,
   0xD0, 0x2C, 0x1E, 0x8F, 0xCA, 0x3F, 0x0F, 0x02, 0xC1, 0xAF, 0xBD, 0x03, 0x01, 0x13, 0x8A, 0x6B,
   0x3A, 0x91, 0x11, 0x41, 0x4F, 0x67, 0xDC, 0xEA, 0x97, 0xF2, 0xCF, 0xCE, 0xF0, 0xB4, 0xE6, 0x73,
   0x96, 0xAC, 0x74, 0x22, 0xE7, 0xAD, 0x35, 0x85, 0xE2, 0xF9, 0x37, 0xE8, 0x1C, 0x75, 0xDF, 0x6E,
   0x47, 0xF1, 0x1A, 0x71, 0x1D, 0x29, 0xC5, 0x89, 0x6F, 0xB7, 0x62, 0x0E, 0xAA, 0x18, 0xBE, 0x1B,
   0xFC, 0x56, 0x3E, 0x4B, 0xC6, 0xD2, 0x79, 0x20, 0x9A, 0xDB, 0xC0, 0xFE, 0x78, 0xCD, 0x5A, 0xF4,
   0x1F, 0xDD, 0xA8, 0x33, 0x88, 0x07, 0xC7, 0x31, 0xB1, 0x12, 0x10, 0x59, 0x27, 0x80, 0xEC, 0x5F,
   0x60, 0x51, 0x7F, 0xA9, 0x19, 0xB5, 0x4A, 0x0D, 0x2D, 0xE5, 0x7A, 0x9F, 0x93, 0xC9, 0x9C, 0xEF,
   0xA0, 0xE0, 0x3B, 0x4D, 0xAE, 0x2A, 0xF5, 0xB0, 0xC8, 0xEB, 0xBB, 0x3C, 0x83, 0x53, 0x99, 0x61,
   0x17, 0x2B, 0x04, 0x7E, 0xBA, 0x77, 0xD6, 0x26, 0xE1, 0x69, 0x14, 0x63, 0x55, 0x21, 0x0C, 0x7D
  ]

def sb4Tab : List Nat :=
  [
   0x30, 0x68, 0x99, 0x1B, 0x87, 0xB9, 0x21, 0x78, 0x50, 0x39, 0xDB, 0xE1, 0x72, 0x09, 0x62, 0x3C,
   0x3E, 0x7E, 0x5E, 0x8E, 0xF1, 0xA0, 0xCC, 0xA3, 0x2A, 0x1D, 0xFB, 0xB6, 0xD6, 0x20, 0xC4, 0x8D,
   0x81, 0x65, 0xF5, 0x89, 0xCB, 0x9D, 0x77, 0xC6, 0x57, 0x43, 0x56, 0x17, 0xD4, 0x40, 0x1A, 0x4D,
   0xC0, 0x63, 0x6C, 0xE3, 0xB7, 0xC8, 0x64, 0x6A, 0x53, 0xAA, 0x38, 0x98, 0x0C, 0xF4, 0x9B, 0xED,
   0x7F, 0x22, 0x76, 0xAF, 0xDD, 0x3A, 0x0B, 0x58, 0x67, 0x88, 0x06, 0xC3, 0x35, 0x0D, 0x01, 0x8B,
   0x8C, 0xC2, 0xE6, 0x5F, 0x02, 0x24, 0x75, 0x93, 0x66, 0x1E, 0xE5, 0xE2, 0x54, 0xD8, 0x10, 0xCE,
   0x7A, 0xE8, 0x08, 0x2C, 0x12, 0x97, 0x32, 0xAB, 0xB4, 0x27, 0x0A, 0x23, 0xDF, 0xEF, 0xCA, 0xD9,
   0xB8, 0xFA, 0xDC, 0x31, 0x6B, 0xD1, 0xAD, 0x19, 0x49, 0xBD, 0x51, 0x96, 0xEE, 0xE4, 0xA8, 0x41,
   0xDA, 0xFF, 0xCD, 0x55, 0x86, 0x36, 0xBE, 0x61, 0x52, 0xF8, 0xBB, 0x0E, 0x82, 0x48, 0x69, 0x9A,
   0xE0, 0x47, 0x9E, 0x5C, 0x04, 0x4B, 0x34, 0x15, 0x79, 0x26, 0xA7, 0xDE, 0x29, 0xAE, 0x92, 0xD7,
   0x84, 0xE9, 0xD2, 0xBA, 0x5D, 0xF3, 0xC5, 0xB0, 0xBF, 0xA4, 0x3B, 0x71, 0x44, 0x46, 0x2B, 0xFC,
   0xEB, 0x6F, 0xD5, 0xF6, 0x14, 0xFE, 0x7C, 0x70, 0x5A, 0x7D, 0xFD, 0x2F, 0x18, 0x83, 0x16, 0xA5,
   0x91, 0x1F, 0x05, 0x95, 0x74, 0xA9, 0xC1, 0x5B, 0x4A, 0x85, 0x6D, 0x13, 0x07, 0x4F, 0x4E, 0x45,
   0xB2, 0x0F, 0xC9, 0x1C, 0xA6, 0xBC, 0xEC, 0x73, 0x90, 0x7B, 0xCF, 0x59, 0x8F, 0xA1, 0xF9, 0x2D,
   0xF2, 0xB1, 0x00, 0x94, 0x37, 0x9F, 0xD0, 0x2E, 0x9C, 0x6E, 0x28, 0x3F, 0x80, 0xF0, 0x3D, 0xD3,
   0x25, 0x8A, 0xB5, 0xE7, 0x42, 0xB3, 0xC7, 0xEA, 0xF7, 0x4C, 0x11, 0x33, 0x03, 0xA2, 0xAC, 0x60
  ]

/-- Key scheduling constants `c[12]` of `aria.c`. -/
def cTab : List Nat :=
  [0x517CC1B7, 0x27220A94, 0xFE13ABE8, 0xFA9A6EE0, 0x6DB14ACC, 0x9E21C820,
   0xFF28B1D5, 0xEF5DE2B0, 0xDB92371D, 0x2126E970, 0x03249775, 0x04E8C90E]

/-- Lookup `sb1[i]` (a read outside the 256-entry table never occurs in the
code; the default 0 keeps the function total). -/
def sb1 (i : Nat) : Nat := sb1Tab.getD i 0

/-- Lookup `sb2[i]`. -/
def sb2 (i : Nat) : Nat := sb2Tab.getD i 0

/-- Lookup `sb3[i]`. -/
def sb3 (i : Nat) : Nat := sb3Tab.getD i 0

/-- Lookup `sb4[i]`. -/
def sb4 (i : Nat) : Nat := sb4Tab.getD i 0

/-- Macro `SL1(b, a)`: substitution layer of type 1. -/
def SL1 (x : Block) : Block :=
  ⟨pack (sb1 (X x 0)) (sb2 (X x 1)) (sb3 (X x 2)) (sb4 (X x 3)),
   pack (sb1 (X x 4)) (sb2 (X x 5)) (sb3 (X x 6)) (sb4 (X x 7)),
   pack (sb1 (X x 8)) (sb2 (X x 9)) (sb3 (X x 10)) (sb4 (X x 11)),
   pack (sb1 (X x 12)) (sb2 (X x 13)) (sb3 (X x 14)) (sb4 (X x 15))⟩

/-- Macro `SL2(b, a)`: substitution layer of type 2. -/
def SL2 (x : Block) : Block :=
  ⟨pack (sb3 (X x 0)) (sb4 (X x 1)) (sb1 (X x 2)) (sb2 (X x 3)),
   pack (sb3 (X x 4)) (sb4 (X x 5)) (sb1 (X x 6)) (sb2 (X x 7)),
   pack (sb3 (X x 8)) (sb4 (X x 9)) (sb1 (X x 10)) (sb2 (X x 11)),
   pack (sb3 (X x 12)) (sb4 (X x 13)) (sb1 (X x 14)) (sb2 (X x 15))⟩

/-- Macro `A(b, a)`: the diffusion layer. -/
def ariaA (x : Block) : Block :=
  ⟨pack (X x 3 ^^^ X x 4 ^^^ X x 6 ^^^ X x 8 ^^^ X x 9 ^^^ X x 13 ^^^ X x 14)
        (X x 2 ^^^ X x 5 ^^^ X x 7 ^^^ X x 8 ^^^ X x 9 ^^^ X x 12 ^^^ X x 15)
        (X x 1 ^^^ X x 4 ^^^ X x 6 ^^^ X x 10 ^^^ X x 11 ^^^ X x 12 ^^^ X x 15)
        (X x 0 ^^^ X x 5 ^^^ X x 7 ^^^ X x 10 ^^^ X x 11 ^^^ X x 13 ^^^ X x 14),
   pack (X x 0 ^^^ X x 2 ^^^ X x 5 ^^^ X x 8 ^^^ X x 11 ^^^ X x 14 ^^^ X x 15)
        (X x 1 ^^^ X x 3 ^^^ X x 4 ^^^ X x 9 ^^^ X x 10 ^^^ X x 14 ^^^ X x 15)
        (X x 0 ^^^ X x 2 ^^^ X x 7 ^^^ X x 9 ^^^ X x 10 ^^^ X x 12 ^^^ X x 13)
        (X x 1 ^^^ X x 3 ^^^ X x 6 ^^^ X x 8 ^^^ X x 11 ^^^ X x 12 ^^^ X x 13),
   pack (X x 0 ^^^ X x 1 ^^^ X x 4 ^^^ X x 7 ^^^ X x 10 ^^^ X x 13 ^^^ X x 15)
        (X x 0 ^^^ X x 1 ^^^ X x 5 ^^^ X x 6 ^^^ X x 11 ^^^ X x 12 ^^^ X x 14)
        (X x 2 ^^^ X x 3 ^^^ X x 5 ^^^ X x 6 ^^^ X x 8 ^^^ X x 13 ^^^ X x 15)
        (X x 2 ^^^ X x 3 ^^^ X x 4 ^^^ X x 7 ^^^ X x 9 ^^^ X x 12 ^^^ X x 14),
   pack (X x 1 ^^^ X x 2 ^^^ X x 6 ^^^ X x 7 ^^^ X x 9 ^^^ X x 11 ^^^ X x 12)
        (X x 0 ^^^ X x 3 ^^^ X x 6 ^^^ X x 7 ^^^ X x 8 ^^^ X x 10 ^^^ X x 13)
        (X x 0 ^^^ X x 3 ^^^ X x 4 ^^^ X x 5 ^^^ X x 9 ^^^ X x 11 ^^^ X x 14)
        (X x 1 ^^^ X x 2 ^^^ X x 4 ^^^ X x 5 ^^^ X x 8 ^^^ X x 10 ^^^ X x 15)⟩

/-- Odd round function `OF` of `aria.c`. -/
def OF (d rk : Block) : Block := ariaA (SL1 (xor128 d rk))

/-- Even round function `EF` of `aria.c`. -/
def EF (d rk : Block) : Block := ariaA (SL2 (xor128 d rk))

/-- Modelled from the spec: the `LOAD32BE` macro lives in `core/crypto.h`,
which is not part of the sources at hand; §6 of the specification fixes it
as a big-endian 32-bit load from a byte sequence. Reads past the end of the
list yield 0, which only happens where the C code never dereferences. -/
def load32BE (p : List Nat) (off : Nat) : Nat :=
  pack (p.getD off 0) (p.getD (off + 1) 0) (p.getD (off + 2) 0) (p.getD (off + 3) 0)

/-- Modelled from the spec: the `STORE32BE` macro (also from `core/crypto.h`)
stores a 32-bit word as four big-endian bytes. -/
def store32BE (w : Nat) : List Nat :=
  [w >>> 24 &&& 0xFF, w >>> 16 &&& 0xFF, w >>> 8 &&& 0xFF, w &&& 0xFF]

/-- Error codes returned by `ariaInit` (subset of the library's `error_t`). -/
inductive ErrorCode where
  | ERROR_INVALID_PARAMETER
  | ERROR_INVALID_KEY_LENGTH
deriving DecidableEq, Repr

/-- The `AriaContext` structure: round count and the two round-key tables.
The C arrays `ek[68]`/`dk[68]` hold 17 blocks of four words each; here each
table is the list of 128-bit round keys actually written by `ariaInit`. -/
structure AriaContext where
  nr : Nat
  ek : List Block
  dk : List Block
deriving DecidableEq, Repr, Inhabited

/-- Helper selecting the 128-bit constant `c + off` used for `ck1`/`ck2`/`ck3`. -/
def ckBlock (off : Nat) : Block :=
  ⟨cTab.getD off 0, cTab.getD (off + 1) 0, cTab.getD (off + 2) 0, cTab.getD (off + 3) 0⟩

/-- Word `w[i]` right after the key-loading loop of `ariaInit` (lines
406-416 of `aria.c`): the first `keyLen / 4` words are loaded big-endian
from the key, the rest are zero. -/
def wldKey (key : List Nat) (keyLen i : Nat) : Nat :=
  if i < keyLen / 4 then load32BE key (i * 4) else 0

/-- The 128-bit value `KL` (words `w[0..3]`). -/
def ariaKL (key : List Nat) (keyLen : Nat) : Block :=
  ⟨wldKey key keyLen 0, wldKey key keyLen 1, wldKey key keyLen 2, wldKey key keyLen 3⟩

/-- The 128-bit value `KR` (words `w[4..7]`, saved into `w[8..11]`). -/
def ariaKR (key : List Nat) (keyLen : Nat) : Block :=
  ⟨wldKey key keyLen 4, wldKey key keyLen 5, wldKey key keyLen 6, wldKey key keyLen 7⟩

/-- Intermediate value `W1 = OF(W0, CK1) XOR KR` (the code computes it in
place in `w[4..7]`). -/
def ariaW1 (key : List Nat) (keyLen : Nat) (ck1 : Block) : Block :=
  xor128 (OF (ariaKL key keyLen) ck1) (ariaKR key keyLen)

/-- Intermediate value `W2 = EF(W1, CK2) XOR W0` (computed in `w[8..11]`). -/
def ariaW2 (key : List Nat) (keyLen : Nat) (ck1 ck2 : Block) : Block :=
  xor128 (EF (ariaW1 key keyLen ck1) ck2) (ariaKL key keyLen)

/-- Intermediate value `W3 = OF(W2, CK3) XOR W1` (computed in `w[12..15]`). -/
def ariaW3 (key : List Nat) (keyLen : Nat) (ck1 ck2 ck3 : Block) : Block :=
  xor128 (OF (ariaW2 key keyLen ck1 ck2) ck3) (ariaW1 key keyLen ck1)

/-- The 17 encryption round keys written by lines 438-471 of `aria.c`
(`ek + 4*i` viewed as the `i`-th 128-bit round key). -/
def ariaEk (key : List Nat) (keyLen : Nat) (ck1 ck2 ck3 : Block) : List Block :=
  let kl := ariaKL key keyLen
  let w1 := ariaW1 key keyLen ck1
  let w2 := ariaW2 key keyLen ck1 ck2
  let w3 := ariaW3 key keyLen ck1 ck2 ck3
  [xor128 (rol128 w1 109) kl, xor128 (rol128 w2 109) w1,
   xor128 (rol128 w3 109) w2, xor128 (rol128 kl 109) w3,
   xor128 (rol128 w1 97) kl, xor128 (rol128 w2 97) w1,
   xor128 (rol128 w3 97) w2, xor128 (rol128 kl 97) w3,
   xor128 (rol128 w1 61) kl, xor128 (rol128 w2 61) w1,
   xor128 (rol128 w3 61) w2, xor128 (rol128 kl 61) w3,
   xor128 (rol128 w1 31) kl, xor128 (rol128 w2 31) w1,
   xor128 (rol128 w3 31) w2, xor128 (rol128 kl 31) w3,
   xor128 (rol128 w1 19) kl]

/-- The decryption round keys written by lines 473-485 of `aria.c`:
`dk[0] = ek[nr]`, then `dk[i] = A(ek[nr-i])` for `i = 1..nr-1`, and finally
`dk[nr] = ek[0]`. -/
def ariaDk (ek : List Block) (nr : Nat) : List Block :=
  ek.getD nr default ::
    ((List.range (nr - 1)).map fun j => ariaA (ek.getD (nr - (j + 1)) default)) ++
      [ek.getD 0 default]

/-- Body of `ariaInit` after parameter validation (lines 402-488 of
`aria.c`), parameterised by the selected round count and constants. -/
def ariaKeySetup (key : List Nat) (keyLen nr : Nat) (ck1 ck2 ck3 : Block) :
    AriaContext :=
  ⟨nr, ariaEk key keyLen ck1 ck2 ck3, ariaDk (ariaEk key keyLen ck1 ck2 ck3) nr⟩

/-- Function `ariaInit`. The two booleans model NULL `context`/`key`
pointers (the C code checks them before looking at `keyLen`). -/
def ariaInit (ctxNull keyNull : Bool) (key : List Nat) (keyLen : Nat) :
    Except ErrorCode AriaContext :=
  if ctxNull || keyNull then
    Except.error ErrorCode.ERROR_INVALID_PARAMETER
  else if keyLen = 16 then
    Except.ok (ariaKeySetup key keyLen 12 (ckBlock 0) (ckBlock 4) (ckBlock 8))
  else if keyLen = 24 then
    Except.ok (ariaKeySetup key keyLen 14 (ckBlock 4) (ckBlock 8) (ckBlock 0))
  else if keyLen = 32 then
    Except.ok (ariaKeySetup key keyLen 16 (ckBlock 8) (ckBlock 0) (ckBlock 4))
  else
    Except.error ErrorCode.ERROR_INVALID_KEY_LENGTH

/-- Big-endian load of a 16-byte buffer into the four-word state, as done at
the top of `ariaEncryptBlock`/`ariaDecryptBlock`. -/
def loadBlock (input : List Nat) : Block :=
  ⟨load32BE input 0, load32BE input 4, load32BE input 8, load32BE input 12⟩

/-- Big-endian store of the four-word state into a 16-byte buffer, as done at
the bottom of `ariaEncryptBlock`/`ariaDecryptBlock`. -/
def storeBlock (q : Block) : List Nat :=
  store32BE q.w0 ++ store32BE q.w1 ++ store32BE q.w2 ++ store32BE q.w3

/-- Function `ariaEncryptBlock`. -/
def ariaEncryptBlock (context : AriaContext) (input : List Nat) : List Nat :=
  let rk : Nat → Block := fun i => context.ek.getD i default
  let p := loadBlock input
  let p := OF p (rk 0)
  let p := EF p (rk 1)
  let p := OF p (rk 2)
  let p := EF p (rk 3)
  let p := OF p (rk 4)
  let p := EF p (rk 5)
  let p := OF p (rk 6)
  let p := EF p (rk 7)
  let p := OF p (rk 8)
  let p := EF p (rk 9)
  let p := OF p (rk 10)
  let q : Block :=
    if context.nr = 12 then
      xor128 (SL2 (xor128 p (rk 11))) (rk 12)
    else if context.nr = 14 then
      let p := EF p (rk 11)
      let p := OF p (rk 12)
      xor128 (SL2 (xor128 p (rk 13))) (rk 14)
    else
      let p := EF p (rk 11)
      let p := OF p (rk 12)
      let p := EF p (rk 13)
      let p := OF p (rk 14)
      xor128 (SL2 (xor128 p (rk 15))) (rk 16)
  storeBlock q

/-- Function `ariaDecryptBlock`: identical structure, reading `dk`. -/
def ariaDecryptBlock (context : AriaContext) (input : List Nat) : List Nat :=
  let rk : Nat → Block := fun i => context.dk.getD i default
  let p := loadBlock input
  let p := OF p (rk 0)
  let p := EF p (rk 1)
  let p := OF p (rk 2)
  let p := EF p (rk 3)
  let p := OF p (rk 4)
  let p := EF p (rk 5)
  let p := OF p (rk 6)
  let p := EF p (rk 7)
  let p := OF p (rk 8)
  let p := EF p (rk 9)
  let p := OF p (rk 10)
  let q : Block :=
    if context.nr = 12 then
      xor128 (SL2 (xor128 p (rk 11))) (rk 12)
    else if context.nr = 14 then
      let p := EF p (rk 11)
      let p := OF p (rk 12)
      xor128 (SL2 (xor128 p (rk 13))) (rk 14)
    else
      let p := EF p (rk 11)
      let p := OF p (rk 12)
      let p := EF p (rk 13)
      let p := OF p (rk 14)
      xor128 (SL2 (xor128 p (rk 15))) (rk 16)
  storeBlock q

/-! ### Bit-level helper lemmas -/

/-- Validity predicate: every word of the state fits in 32 bits, as the C
`uint32_t` representation guarantees. -/
def Block.Valid (x : Block) : Prop :=
  x.w0 < 2 ^ 32 ∧ x.w1 < 2 ^ 32 ∧ x.w2 < 2 ^ 32 ∧ x.w3 < 2 ^ 32

instance (x : Block) : Decidable x.Valid := by
  unfold Block.Valid
  infer_instance

theorem and255_eq_mod (x : Nat) : x &&& 0xFF = x % 256 := by
  have h := Nat.and_pow_two_sub_one_eq_mod x 8
  norm_num at h
  exact h

theorem lor_high_low {y : Nat} (x k : Nat) (hy : y < 2 ^ k) :
    x <<< k ||| y = x <<< k + y := by
  rw [Nat.shiftLeft_eq, Nat.mul_comm]
  exact (Nat.mul_add_lt_is_or hy x).symm

theorem pack_eq_add {b c d : Nat} (a : Nat) (hb : b < 256) (hc : c < 256)
    (hd : d < 256) :
    pack a b c d = a * 2 ^ 24 + b * 2 ^ 16 + c * 2 ^ 8 + d := by
  have hd8 : d < 2 ^ 8 := hd
  have h1 : c <<< 8 ||| d = c <<< 8 + d := lor_high_low c 8 hd8
  have h2 : b <<< 16 ||| (c <<< 8 + d) = b <<< 16 + (c <<< 8 + d) := by
    refine lor_high_low b 16 ?_
    rw [Nat.shiftLeft_eq]
    omega
  have h3 : a <<< 24 ||| (b <<< 16 + (c <<< 8 + d)) =
      a <<< 24 + (b <<< 16 + (c <<< 8 + d)) := by
    refine lor_high_low a 24 ?_
    rw [Nat.shiftLeft_eq, Nat.shiftLeft_eq]
    omega
  unfold pack
  rw [Nat.or_assoc, Nat.or_assoc, h1, h2, h3, Nat.shiftLeft_eq, Nat.shiftLeft_eq,
    Nat.shiftLeft_eq]
  omega

theorem pack_lt {a b c d : Nat} (ha : a < 256) (hb : b < 256) (hc : c < 256)
    (hd : d < 256) : pack a b c d < 2 ^ 32 := by
  rw [pack_eq_add a hb hc hd]
  omega

theorem unpack24 {a b c d : Nat} (ha : a < 256) (hb : b < 256) (hc : c < 256)
    (hd : d < 256) : pack a b c d >>> 24 &&& 0xFF = a := by
  rw [pack_eq_add a hb hc hd, Nat.shiftRight_eq_div_pow, and255_eq_mod]
  omega

theorem unpack16 {a b c d : Nat} (ha : a < 256) (hb : b < 256) (hc : c < 256)
    (hd : d < 256) : pack a b c d >>> 16 &&& 0xFF = b := by
  rw [pack_eq_add a hb hc hd, Nat.shiftRight_eq_div_pow, and255_eq_mod]
  omega

theorem unpack8 {a b c d : Nat} (ha : a < 256) (hb : b < 256) (hc : c < 256)
    (hd : d < 256) : pack a b c d >>> 8 &&& 0xFF = c := by
  rw [pack_eq_add a hb hc hd, Nat.shiftRight_eq_div_pow, and255_eq_mod]
  omega

theorem unpack0 {a b c d : Nat} (ha : a < 256) (hb : b < 256) (hc : c < 256)
    (hd : d < 256) : pack a b c d &&& 0xFF = d := by
  rw [pack_eq_add a hb hc hd, and255_eq_mod]
  omega

theorem pack_unpack {w : Nat} (hw : w < 2 ^ 32) :
    pack (w >>> 24 &&& 0xFF) (w >>> 16 &&& 0xFF) (w >>> 8 &&& 0xFF) (w &&& 0xFF) = w := by
  rw [and255_eq_mod, and255_eq_mod, and255_eq_mod, and255_eq_mod,
    Nat.shiftRight_eq_div_pow, Nat.shiftRight_eq_div_pow, Nat.shiftRight_eq_div_pow,
    pack_eq_add _ (Nat.mod_lt _ (by norm_num)) (Nat.mod_lt _ (by norm_num))
      (Nat.mod_lt _ (by norm_num))]
  omega

theorem shiftRight_xor_distrib (a b k : Nat) :
    (a ^^^ b) >>> k = a >>> k ^^^ b >>> k := by
  apply Nat.eq_of_testBit_eq
  intro i
  simp

theorem xor_split {u v : Nat} (x y k : Nat) (hu : u < 2 ^ k) (hv : v < 2 ^ k) :
    (x <<< k ||| u) ^^^ (y <<< k ||| v) = (x ^^^ y) <<< k ||| (u ^^^ v) := by
  apply Nat.eq_of_testBit_eq
  intro i
  simp only [Nat.testBit_xor, Nat.testBit_or, Nat.testBit_shiftLeft]
  by_cases hik : k ≤ i
  · have hu' : u.testBit i = false :=
      Nat.testBit_lt_two_pow (lt_of_lt_of_le hu (Nat.pow_le_pow_of_le_right (by norm_num) hik))
    have hv' : v.testBit i = false :=
      Nat.testBit_lt_two_pow (lt_of_lt_of_le hv (Nat.pow_le_pow_of_le_right (by norm_num) hik))
    simp [hik, hu', hv']
  · simp [hik]

theorem pack_xor {b c d f g h : Nat} (a e : Nat) (hb : b < 256) (hc : c < 256)
    (hd : d < 256) (hf : f < 256) (hg : g < 256) (hh : h < 256) :
    pack a b c d ^^^ pack e f g h = pack (a ^^^ e) (b ^^^ f) (c ^^^ g) (d ^^^ h) := by
  have hcd : c <<< 8 ||| d < 2 ^ 16 := by
    rw [lor_high_low c 8 hd, Nat.shiftLeft_eq]
    omega
  have hgh : g <<< 8 ||| h < 2 ^ 16 := by
    rw [lor_high_low g 8 hh, Nat.shiftLeft_eq]
    omega
  have hbcd : b <<< 16 ||| (c <<< 8 ||| d) < 2 ^ 24 := by
    rw [lor_high_low b 16 hcd, Nat.shiftLeft_eq]
    omega
  have hfgh : f <<< 16 ||| (g <<< 8 ||| h) < 2 ^ 24 := by
    rw [lor_high_low f 16 hgh, Nat.shiftLeft_eq]
    omega
  unfold pack
  simp only [Nat.or_assoc]
  rw [xor_split a e 24 hbcd hfgh, xor_split b f 16 hcd hgh, xor_split c g 8 hd hh]

theorem X_lt (x : Block) (n : Nat) : X x n < 256 := by
  exact Nat.and_lt_two_pow _ (show 0xFF < 2 ^ 8 by norm_num)

theorem getD_lt_256 {l : List Nat} (hl : ∀ b ∈ l, b < 256) (i : Nat) :
    l.getD i 0 < 256 := by
  by_cases h : i < l.length
  · rw [List.getD_eq_getElem?_getD, List.getElem?_eq_getElem h]
    exact hl _ (List.getElem_mem h)
  · rw [List.getD_eq_getElem?_getD, List.getElem?_eq_none (by omega)]
    norm_num

theorem xor_byte_lt {a b : Nat} (ha : a < 256) (hb : b < 256) : a ^^^ b < 256 :=
  Nat.xor_lt_two_pow (n := 8) ha hb

theorem xor_left_comm (a b c : Nat) : a ^^^ (b ^^^ c) = b ^^^ (a ^^^ c) := by
  rw [← Nat.xor_assoc, Nat.xor_comm a b, Nat.xor_assoc]

/-! ### S-box facts -/

theorem sb_lt_bounded :
    ∀ i < 256, sb1 i < 256 ∧ sb2 i < 256 ∧ sb3 i < 256 ∧ sb4 i < 256 := by decide

theorem sb1Tab_length : sb1Tab.length = 256 := by rfl

theorem sb2Tab_length : sb2Tab.length = 256 := by rfl

theorem sb3Tab_length : sb3Tab.length = 256 := by rfl

theorem sb4Tab_length : sb4Tab.length = 256 := by rfl

theorem sb1_lt (i : Nat) : sb1 i < 256 := by
  by_cases h : i < 256
  · exact (sb_lt_bounded i h).1
  · unfold sb1
    rw [List.getD_eq_getElem?_getD, List.getElem?_eq_none (by rw [sb1Tab_length]; omega)]
    norm_num

theorem sb2_lt (i : Nat) : sb2 i < 256 := by
  by_cases h : i < 256
  · exact (sb_lt_bounded i h).2.1
  · unfold sb2
    rw [List.getD_eq_getElem?_getD, List.getElem?_eq_none (by rw [sb2Tab_length]; omega)]
    norm_num

theorem sb3_lt (i : Nat) : sb3 i < 256 := by
  by_cases h : i < 256
  · exact (sb_lt_bounded i h).2.2.1
  · unfold sb3
    rw [List.getD_eq_getElem?_getD, List.getElem?_eq_none (by rw [sb3Tab_length]; omega)]
    norm_num

theorem sb4_lt (i : Nat) : sb4 i < 256 := by
  by_cases h : i < 256
  · exact (sb_lt_bounded i h).2.2.2
  · unfold sb4
    rw [List.getD_eq_getElem?_getD, List.getElem?_eq_none (by rw [sb4Tab_length]; omega)]
    norm_num

theorem sb_inv_13 : ∀ i < 256, sb3 (sb1 i) = i := by decide

theorem sb_inv_31 : ∀ i < 256, sb1 (sb3 i) = i := by decide

theorem sb_inv_24 : ∀ i < 256, sb4 (sb2 i) = i := by decide

theorem sb_inv_42 : ∀ i < 256, sb2 (sb4 i) = i := by decide

/-! ### Byte access on explicit states -/

theorem word_zero (x : Block) : x.word 0 = x.w0 := rfl

theorem word_one (x : Block) : x.word 1 = x.w1 := rfl

theorem word_two (x : Block) : x.word 2 = x.w2 := rfl

theorem word_three (x : Block) : x.word 3 = x.w3 := rfl

theorem word_xor128 (x y : Block) (m : Nat) :
    (xor128 x y).word m = x.word m ^^^ y.word m := by
  rcases m with _ | _ | _ | m <;> rfl

theorem X_def_0 (x : Block) : X x 0 = x.w0 >>> 24 &&& 0xFF := rfl

theorem X_def_1 (x : Block) : X x 1 = x.w0 >>> 16 &&& 0xFF := rfl

theorem X_def_2 (x : Block) : X x 2 = x.w0 >>> 8 &&& 0xFF := rfl

theorem X_def_3 (x : Block) : X x 3 = x.w0 &&& 0xFF := rfl

theorem X_def_4 (x : Block) : X x 4 = x.w1 >>> 24 &&& 0xFF := rfl

theorem X_def_5 (x : Block) : X x 5 = x.w1 >>> 16 &&& 0xFF := rfl

theorem X_def_6 (x : Block) : X x 6 = x.w1 >>> 8 &&& 0xFF := rfl

theorem X_def_7 (x : Block) : X x 7 = x.w1 &&& 0xFF := rfl

theorem X_def_8 (x : Block) : X x 8 = x.w2 >>> 24 &&& 0xFF := rfl

theorem X_def_9 (x : Block) : X x 9 = x.w2 >>> 16 &&& 0xFF := rfl

theorem X_def_10 (x : Block) : X x 10 = x.w2 >>> 8 &&& 0xFF := rfl

theorem X_def_11 (x : Block) : X x 11 = x.w2 &&& 0xFF := rfl

theorem X_def_12 (x : Block) : X x 12 = x.w3 >>> 24 &&& 0xFF := rfl

theorem X_def_13 (x : Block) : X x 13 = x.w3 >>> 16 &&& 0xFF := rfl

theorem X_def_14 (x : Block) : X x 14 = x.w3 >>> 8 &&& 0xFF := rfl

theorem X_def_15 (x : Block) : X x 15 = x.w3 &&& 0xFF := rfl

theorem X_xor (x y : Block) (n : Nat) : X (xor128 x y) n = X x n ^^^ X y n := by
  unfold X
  rw [word_xor128, shiftRight_xor_distrib, Nat.and_xor_distrib_right]

theorem xor7X_lt (x : Block) (i1 i2 i3 i4 i5 i6 i7 : Nat) :
    X x i1 ^^^ X x i2 ^^^ X x i3 ^^^ X x i4 ^^^ X x i5 ^^^ X x i6 ^^^ X x i7 < 256 := by
  repeat' apply xor_byte_lt
  all_goals exact X_lt x _

/-! ### Validity closure -/

theorem SL1_valid (x : Block) : (SL1 x).Valid :=
  ⟨pack_lt (sb1_lt _) (sb2_lt _) (sb3_lt _) (sb4_lt _),
   pack_lt (sb1_lt _) (sb2_lt _) (sb3_lt _) (sb4_lt _),
   pack_lt (sb1_lt _) (sb2_lt _) (sb3_lt _) (sb4_lt _),
   pack_lt (sb1_lt _) (sb2_lt _) (sb3_lt _) (sb4_lt _)⟩

theorem SL2_valid (x : Block) : (SL2 x).Valid :=
  ⟨pack_lt (sb3_lt _) (sb4_lt _) (sb1_lt _) (sb2_lt _),
   pack_lt (sb3_lt _) (sb4_lt _) (sb1_lt _) (sb2_lt _),
   pack_lt (sb3_lt _) (sb4_lt _) (sb1_lt _) (sb2_lt _),
   pack_lt (sb3_lt _) (sb4_lt _) (sb1_lt _) (sb2_lt _)⟩

theorem ariaA_valid (x : Block) : (ariaA x).Valid :=
  ⟨pack_lt (xor7X_lt x _ _ _ _ _ _ _) (xor7X_lt x _ _ _ _ _ _ _)
     (xor7X_lt x _ _ _ _ _ _ _) (xor7X_lt x _ _ _ _ _ _ _),
   pack_lt (xor7X_lt x _ _ _ _ _ _ _) (xor7X_lt x _ _ _ _ _ _ _)
     (xor7X_lt x _ _ _ _ _ _ _) (xor7X_lt x _ _ _ _ _ _ _),
   pack_lt (xor7X_lt x _ _ _ _ _ _ _) (xor7X_lt x _ _ _ _ _ _ _)
     (xor7X_lt x _ _ _ _ _ _ _) (xor7X_lt x _ _ _ _ _ _ _),
   pack_lt (xor7X_lt x _ _ _ _ _ _ _) (xor7X_lt x _ _ _ _ _ _ _)
     (xor7X_lt x _ _ _ _ _ _ _) (xor7X_lt x _ _ _ _ _ _ _)⟩

theorem OF_valid (d rk : Block) : (OF d rk).Valid := ariaA_valid _

theorem EF_valid (d rk : Block) : (EF d rk).Valid := ariaA_valid _

theorem xor128_valid {x y : Block} (hx : x.Valid) (hy : y.Valid) :
    (xor128 x y).Valid :=
  ⟨Nat.xor_lt_two_pow hx.1 hy.1, Nat.xor_lt_two_pow hx.2.1 hy.2.1,
   Nat.xor_lt_two_pow hx.2.2.1 hy.2.2.1, Nat.xor_lt_two_pow hx.2.2.2 hy.2.2.2⟩

theorem rol128_valid (a : Block) (n : Nat) : (rol128 a n).Valid :=
  ⟨Nat.mod_lt _ (by norm_num), Nat.mod_lt _ (by norm_num),
   Nat.mod_lt _ (by norm_num), Nat.mod_lt _ (by norm_num)⟩

theorem load32BE_valid {key : List Nat} (hl : ∀ b ∈ key, b < 256) (off : Nat) :
    load32BE key off < 2 ^ 32 :=
  pack_lt (getD_lt_256 hl _) (getD_lt_256 hl _) (getD_lt_256 hl _) (getD_lt_256 hl _)

theorem loadBlock_valid {input : List Nat} (hl : ∀ b ∈ input, b < 256) :
    (loadBlock input).Valid :=
  ⟨load32BE_valid hl 0, load32BE_valid hl 4, load32BE_valid hl 8, load32BE_valid hl 12⟩

/-! ### Field and byte lemmas for the substitution and diffusion layers -/

theorem ariaA_w0 (z : Block) :
    (ariaA z).w0 =
      pack (X z 3 ^^^ X z 4 ^^^ X z 6 ^^^ X z 8 ^^^ X z 9 ^^^ X z 13 ^^^ X z 14)
        (X z 2 ^^^ X z 5 ^^^ X z 7 ^^^ X z 8 ^^^ X z 9 ^^^ X z 12 ^^^ X z 15)
        (X z 1 ^^^ X z 4 ^^^ X z 6 ^^^ X z 10 ^^^ X z 11 ^^^ X z 12 ^^^ X z 15)
        (X z 0 ^^^ X z 5 ^^^ X z 7 ^^^ X z 10 ^^^ X z 11 ^^^ X z 13 ^^^ X z 14) := rfl

theorem ariaA_w1 (z : Block) :
    (ariaA z).w1 =
      pack (X z 0 ^^^ X z 2 ^^^ X z 5 ^^^ X z 8 ^^^ X z 11 ^^^ X z 14 ^^^ X z 15)
        (X z 1 ^^^ X z 3 ^^^ X z 4 ^^^ X z 9 ^^^ X z 10 ^^^ X z 14 ^^^ X z 15)
        (X z 0 ^^^ X z 2 ^^^ X z 7 ^^^ X z 9 ^^^ X z 10 ^^^ X z 12 ^^^ X z 13)
        (X z 1 ^^^ X z 3 ^^^ X z 6 ^^^ X z 8 ^^^ X z 11 ^^^ X z 12 ^^^ X z 13) := rfl

theorem ariaA_w2 (z : Block) :
    (ariaA z).w2 =
      pack (X z 0 ^^^ X z 1 ^^^ X z 4 ^^^ X z 7 ^^^ X z 10 ^^^ X z 13 ^^^ X z 15)
        (X z 0 ^^^ X z 1 ^^^ X z 5 ^^^ X z 6 ^^^ X z 11 ^^^ X z 12 ^^^ X z 14)
        (X z 2 ^^^ X z 3 ^^^ X z 5 ^^^ X z 6 ^^^ X z 8 ^^^ X z 13 ^^^ X z 15)
        (X z 2 ^^^ X z 3 ^^^ X z 4 ^^^ X z 7 ^^^ X z 9 ^^^ X z 12 ^^^ X z 14) := rfl

theorem ariaA_w3 (z : Block) :
    (ariaA z).w3 =
      pack (X z 1 ^^^ X z 2 ^^^ X z 6 ^^^ X z 7 ^^^ X z 9 ^^^ X z 11 ^^^ X z 12)
        (X z 0 ^^^ X z 3 ^^^ X z 6 ^^^ X z 7 ^^^ X z 8 ^^^ X z 10 ^^^ X z 13)
        (X z 0 ^^^ X z 3 ^^^ X z 4 ^^^ X z 5 ^^^ X z 9 ^^^ X z 11 ^^^ X z 14)
        (X z 1 ^^^ X z 2 ^^^ X z 4 ^^^ X z 5 ^^^ X z 8 ^^^ X z 10 ^^^ X z 15) := rfl

theorem SL1_w0 (z : Block) :
    (SL1 z).w0 = pack (sb1 (X z 0)) (sb2 (X z 1)) (sb3 (X z 2)) (sb4 (X z 3)) := rfl

theorem SL1_w1 (z : Block) :
    (SL1 z).w1 = pack (sb1 (X z 4)) (sb2 (X z 5)) (sb3 (X z 6)) (sb4 (X z 7)) := rfl

theorem SL1_w2 (z : Block) :
    (SL1 z).w2 = pack (sb1 (X z 8)) (sb2 (X z 9)) (sb3 (X z 10)) (sb4 (X z 11)) := rfl

theorem SL1_w3 (z : Block) :
    (SL1 z).w3 = pack (sb1 (X z 12)) (sb2 (X z 13)) (sb3 (X z 14)) (sb4 (X z 15)) := rfl

theorem SL2_w0 (z : Block) :
    (SL2 z).w0 = pack (sb3 (X z 0)) (sb4 (X z 1)) (sb1 (X z 2)) (sb2 (X z 3)) := rfl

theorem SL2_w1 (z : Block) :
    (SL2 z).w1 = pack (sb3 (X z 4)) (sb4 (X z 5)) (sb1 (X z 6)) (sb2 (X z 7)) := rfl

theorem SL2_w2 (z : Block) :
    (SL2 z).w2 = pack (sb3 (X z 8)) (sb4 (X z 9)) (sb1 (X z 10)) (sb2 (X z 11)) := rfl

theorem SL2_w3 (z : Block) :
    (SL2 z).w3 = pack (sb3 (X z 12)) (sb4 (X z 13)) (sb1 (X z 14)) (sb2 (X z 15)) := rfl

theorem X_SL1_0 (z : Block) : X (SL1 z) 0 = sb1 (X z 0) := by
  rw [X_def_0, SL1_w0]
  exact unpack24 (sb1_lt _) (sb2_lt _) (sb3_lt _) (sb4_lt _)

theorem X_SL1_1 (z : Block) : X (SL1 z) 1 = sb2 (X z 1) := by
  rw [X_def_1, SL1_w0]
  exact unpack16 (sb1_lt _) (sb2_lt _) (sb3_lt _) (sb4_lt _)

theorem X_SL1_2 (z : Block) : X (SL1 z) 2 = sb3 (X z 2) := by
  rw [X_def_2, SL1_w0]
  exact unpack8 (sb1_lt _) (sb2_lt _) (sb3_lt _) (sb4_lt _)

theorem X_SL1_3 (z : Block) : X (SL1 z) 3 = sb4 (X z 3) := by
  rw [X_def_3, SL1_w0]
  exact unpack0 (sb1_lt _) (sb2_lt _) (sb3_lt _) (sb4_lt _)

theorem X_SL1_4 (z : Block) : X (SL1 z) 4 = sb1 (X z 4) := by
  rw [X_def_4, SL1_w1]
  exact unpack24 (sb1_lt _) (sb2_lt _) (sb3_lt _) (sb4_lt _)

theorem X_SL1_5 (z : Block) : X (SL1 z) 5 = sb2 (X z 5) := by
  rw [X_def_5, SL1_w1]
  exact unpack16 (sb1_lt _) (sb2_lt _) (sb3_lt _) (sb4_lt _)

theorem X_SL1_6 (z : Block) : X (SL1 z) 6 = sb3 (X z 6) := by
  rw [X_def_6, SL1_w1]
  exact unpack8 (sb1_lt _) (sb2_lt _) (sb3_lt _) (sb4_lt _)

theorem X_SL1_7 (z : Block) : X (SL1 z) 7 = sb4 (X z 7) := by
  rw [X_def_7, SL1_w1]
  exact unpack0 (sb1_lt _) (sb2_lt _) (sb3_lt _) (sb4_lt _)

theorem X_SL1_8 (z : Block) : X (SL1 z) 8 = sb1 (X z 8) := by
  rw [X_def_8, SL1_w2]
  exact unpack24 (sb1_lt _) (sb2_lt _) (sb3_lt _) (sb4_lt _)

theorem X_SL1_9 (z : Block) : X (SL1 z) 9 = sb2 (X z 9) := by
  rw [X_def_9, SL1_w2]
  exact unpack16 (sb1_lt _) (sb2_lt _) (sb3_lt _) (sb4_lt _)

theorem X_SL1_10 (z : Block) : X (SL1 z) 10 = sb3 (X z 10) := by
  rw [X_def_10, SL1_w2]
  exact unpack8 (sb1_lt _) (sb2_lt _) (sb3_lt _) (sb4_lt _)

theorem X_SL1_11 (z : Block) : X (SL1 z) 11 = sb4 (X z 11) := by
  rw [X_def_11, SL1_w2]
  exact unpack0 (sb1_lt _) (sb2_lt _) (sb3_lt _) (sb4_lt _)

theorem X_SL1_12 (z : Block) : X (SL1 z) 12 = sb1 (X z 12) := by
  rw [X_def_12, SL1_w3]
  exact unpack24 (sb1_lt _) (sb2_lt _) (sb3_lt _) (sb4_lt _)

theorem X_SL1_13 (z : Block) : X (SL1 z) 13 = sb2 (X z 13) := by
  rw [X_def_13, SL1_w3]
  exact unpack16 (sb1_lt _) (sb2_lt _) (sb3_lt _) (sb4_lt _)

theorem X_SL1_14 (z : Block) : X (SL1 z) 14 = sb3 (X z 14) := by
  rw [X_def_14, SL1_w3]
  exact unpack8 (sb1_lt _) (sb2_lt _) (sb3_lt _) (sb4_lt _)

theorem X_SL1_15 (z : Block) : X (SL1 z) 15 = sb4 (X z 15) := by
  rw [X_def_15, SL1_w3]
  exact unpack0 (sb1_lt _) (sb2_lt _) (sb3_lt _) (sb4_lt _)

theorem X_SL2_0 (z : Block) : X (SL2 z) 0 = sb3 (X z 0) := by
  rw [X_def_0, SL2_w0]
  exact unpack24 (sb3_lt _) (sb4_lt _) (sb1_lt _) (sb2_lt _)

theorem X_SL2_1 (z : Block) : X (SL2 z) 1 = sb4 (X z 1) := by
  rw [X_def_1, SL2_w0]
  exact unpack16 (sb3_lt _) (sb4_lt _) (sb1_lt _) (sb2_lt _)

theorem X_SL2_2 (z : Block) : X (SL2 z) 2 = sb1 (X z 2) := by
  rw [X_def_2, SL2_w0]
  exact unpack8 (sb3_lt _) (sb4_lt _) (sb1_lt _) (sb2_lt _)

theorem X_SL2_3 (z : Block) : X (SL2 z) 3 = sb2 (X z 3) := by
  rw [X_def_3, SL2_w0]
  exact unpack0 (sb3_lt _) (sb4_lt _) (sb1_lt _) (sb2_lt _)

theorem X_SL2_4 (z : Block) : X (SL2 z) 4 = sb3 (X z 4) := by
  rw [X_def_4, SL2_w1]
  exact unpack24 (sb3_lt _) (sb4_lt _) (sb1_lt _) (sb2_lt _)

theorem X_SL2_5 (z : Block) : X (SL2 z) 5 = sb4 (X z 5) := by
  rw [X_def_5, SL2_w1]
  exact unpack16 (sb3_lt _) (sb4_lt _) (sb1_lt _) (sb2_lt _)

theorem X_SL2_6 (z : Block) : X (SL2 z) 6 = sb1 (X z 6) := by
  rw [X_def_6, SL2_w1]
  exact unpack8 (sb3_lt _) (sb4_lt _) (sb1_lt _) (sb2_lt _)

theorem X_SL2_7 (z : Block) : X (SL2 z) 7 = sb2 (X z 7) := by
  rw [X_def_7, SL2_w1]
  exact unpack0 (sb3_lt _) (sb4_lt _) (sb1_lt _) (sb2_lt _)

theorem X_SL2_8 (z : Block) : X (SL2 z) 8 = sb3 (X z 8) := by
  rw [X_def_8, SL2_w2]
  exact unpack24 (sb3_lt _) (sb4_lt _) (sb1_lt _) (sb2_lt _)

theorem X_SL2_9 (z : Block) : X (SL2 z) 9 = sb4 (X z 9) := by
  rw [X_def_9, SL2_w2]
  exact unpack16 (sb3_lt _) (sb4_lt _) (sb1_lt _) (sb2_lt _)

theorem X_SL2_10 (z : Block) : X (SL2 z) 10 = sb1 (X z 10) := by
  rw [X_def_10, SL2_w2]
  exact unpack8 (sb3_lt _) (sb4_lt _) (sb1_lt _) (sb2_lt _)

theorem X_SL2_11 (z : Block) : X (SL2 z) 11 = sb2 (X z 11) := by
  rw [X_def_11, SL2_w2]
  exact unpack0 (sb3_lt _) (sb4_lt _) (sb1_lt _) (sb2_lt _)

theorem X_SL2_12 (z : Block) : X (SL2 z) 12 = sb3 (X z 12) := by
  rw [X_def_12, SL2_w3]
  exact unpack24 (sb3_lt _) (sb4_lt _) (sb1_lt _) (sb2_lt _)

theorem X_SL2_13 (z : Block) : X (SL2 z) 13 = sb4 (X z 13) := by
  rw [X_def_13, SL2_w3]
  exact unpack16 (sb3_lt _) (sb4_lt _) (sb1_lt _) (sb2_lt _)

theorem X_SL2_14 (z : Block) : X (SL2 z) 14 = sb1 (X z 14) := by
  rw [X_def_14, SL2_w3]
  exact unpack8 (sb3_lt _) (sb4_lt _) (sb1_lt _) (sb2_lt _)

theorem X_SL2_15 (z : Block) : X (SL2 z) 15 = sb2 (X z 15) := by
  rw [X_def_15, SL2_w3]
  exact unpack0 (sb3_lt _) (sb4_lt _) (sb1_lt _) (sb2_lt _)

theorem X_ariaA_0 (z : Block) :
    X (ariaA z) 0 = X z 3 ^^^ X z 4 ^^^ X z 6 ^^^ X z 8 ^^^ X z 9 ^^^ X z 13 ^^^ X z 14 := by
  rw [X_def_0, ariaA_w0]
  exact unpack24 (xor7X_lt z _ _ _ _ _ _ _) (xor7X_lt z _ _ _ _ _ _ _) (xor7X_lt z _ _ _ _ _ _ _) (xor7X_lt z _ _ _ _ _ _ _)

theorem X_ariaA_1 (z : Block) :
    X (ariaA z) 1 = X z 2 ^^^ X z 5 ^^^ X z 7 ^^^ X z 8 ^^^ X z 9 ^^^ X z 12 ^^^ X z 15 := by
  rw [X_def_1, ariaA_w0]
  exact unpack16 (xor7X_lt z _ _ _ _ _ _ _) (xor7X_lt z _ _ _ _ _ _ _) (xor7X_lt z _ _ _ _ _ _ _) (xor7X_lt z _ _ _ _ _ _ _)

theorem X_ariaA_2 (z : Block) :
    X (ariaA z) 2 = X z 1 ^^^ X z 4 ^^^ X z 6 ^^^ X z 10 ^^^ X z 11 ^^^ X z 12 ^^^ X z 15 := by
  rw [X_def_2, ariaA_w0]
  exact unpack8 (xor7X_lt z _ _ _ _ _ _ _) (xor7X_lt z _ _ _ _ _ _ _) (xor7X_lt z _ _ _ _ _ _ _) (xor7X_lt z _ _ _ _ _ _ _)

theorem X_ariaA_3 (z : Block) :
    X (ariaA z) 3 = X z 0 ^^^ X z 5 ^^^ X z 7 ^^^ X z 10 ^^^ X z 11 ^^^ X z 13 ^^^ X z 14 := by
  rw [X_def_3, ariaA_w0]
  exact unpack0 (xor7X_lt z _ _ _ _ _ _ _) (xor7X_lt z _ _ _ _ _ _ _) (xor7X_lt z _ _ _ _ _ _ _) (xor7X_lt z _ _ _ _ _ _ _)

theorem X_ariaA_4 (z : Block) :
    X (ariaA z) 4 = X z 0 ^^^ X z 2 ^^^ X z 5 ^^^ X z 8 ^^^ X z 11 ^^^ X z 14 ^^^ X z 15 := by
  rw [X_def_4, ariaA_w1]
  exact unpack24 (xor7X_lt z _ _ _ _ _ _ _) (xor7X_lt z _ _ _ _ _ _ _) (xor7X_lt z _ _ _ _ _ _ _) (xor7X_lt z _ _ _ _ _ _ _)

theorem X_ariaA_5 (z : Block) :
    X (ariaA z) 5 = X z 1 ^^^ X z 3 ^^^ X z 4 ^^^ X z 9 ^^^ X z 10 ^^^ X z 14 ^^^ X z 15 := by
  rw [X_def_5, ariaA_w1]
  exact unpack16 (xor7X_lt z _ _ _ _ _ _ _) (xor7X_lt z _ _ _ _ _ _ _) (xor7X_lt z _ _ _ _ _ _ _) (xor7X_lt z _ _ _ _ _ _ _)

theorem X_ariaA_6 (z : Block) :
    X (ariaA z) 6 = X z 0 ^^^ X z 2 ^^^ X z 7 ^^^ X z 9 ^^^ X z 10 ^^^ X z 12 ^^^ X z 13 := by
  rw [X_def_6, ariaA_w1]
  exact unpack8 (xor7X_lt z _ _ _ _ _ _ _) (xor7X_lt z _ _ _ _ _ _ _) (xor7X_lt z _ _ _ _ _ _ _) (xor7X_lt z _ _ _ _ _ _ _)

theorem X_ariaA_7 (z : Block) :
    X (ariaA z) 7 = X z 1 ^^^ X z 3 ^^^ X z 6 ^^^ X z 8 ^^^ X z 11 ^^^ X z 12 ^^^ X z 13 := by
  rw [X_def_7, ariaA_w1]
  exact unpack0 (xor7X_lt z _ _ _ _ _ _ _) (xor7X_lt z _ _ _ _ _ _ _) (xor7X_lt z _ _ _ _ _ _ _) (xor7X_lt z _ _ _ _ _ _ _)

theorem X_ariaA_8 (z : Block) :
    X (ariaA z) 8 = X z 0 ^^^ X z 1 ^^^ X z 4 ^^^ X z 7 ^^^ X z 10 ^^^ X z 13 ^^^ X z 15 := by
  rw [X_def_8, ariaA_w2]
  exact unpack24 (xor7X_lt z _ _ _ _ _ _ _) (xor7X_lt z _ _ _ _ _ _ _) (xor7X_lt z _ _ _ _ _ _ _) (xor7X_lt z _ _ _ _ _ _ _)

theorem X_ariaA_9 (z : Block) :
    X (ariaA z) 9 = X z 0 ^^^ X z 1 ^^^ X z 5 ^^^ X z 6 ^^^ X z 11 ^^^ X z 12 ^^^ X z 14 := by
  rw [X_def_9, ariaA_w2]
  exact unpack16 (xor7X_lt z _ _ _ _ _ _ _) (xor7X_lt z _ _ _ _ _ _ _) (xor7X_lt z _ _ _ _ _ _ _) (xor7X_lt z _ _ _ _ _ _ _)

theorem X_ariaA_10 (z : Block) :
    X (ariaA z) 10 = X z 2 ^^^ X z 3 ^^^ X z 5 ^^^ X z 6 ^^^ X z 8 ^^^ X z 13 ^^^ X z 15 := by
  rw [X_def_10, ariaA_w2]
  exact unpack8 (xor7X_lt z _ _ _ _ _ _ _) (xor7X_lt z _ _ _ _ _ _ _) (xor7X_lt z _ _ _ _ _ _ _) (xor7X_lt z _ _ _ _ _ _ _)

theorem X_ariaA_11 (z : Block) :
    X (ariaA z) 11 = X z 2 ^^^ X z 3 ^^^ X z 4 ^^^ X z 7 ^^^ X z 9 ^^^ X z 12 ^^^ X z 14 := by
  rw [X_def_11, ariaA_w2]
  exact unpack0 (xor7X_lt z _ _ _ _ _ _ _) (xor7X_lt z _ _ _ _ _ _ _) (xor7X_lt z _ _ _ _ _ _ _) (xor7X_lt z _ _ _ _ _ _ _)

theorem X_ariaA_12 (z : Block) :
    X (ariaA z) 12 = X z 1 ^^^ X z 2 ^^^ X z 6 ^^^ X z 7 ^^^ X z 9 ^^^ X z 11 ^^^ X z 12 := by
  rw [X_def_12, ariaA_w3]
  exact unpack24 (xor7X_lt z _ _ _ _ _ _ _) (xor7X_lt z _ _ _ _ _ _ _) (xor7X_lt z _ _ _ _ _ _ _) (xor7X_lt z _ _ _ _ _ _ _)

theorem X_ariaA_13 (z : Block) :
    X (ariaA z) 13 = X z 0 ^^^ X z 3 ^^^ X z 6 ^^^ X z 7 ^^^ X z 8 ^^^ X z 10 ^^^ X z 13 := by
  rw [X_def_13, ariaA_w3]
  exact unpack16 (xor7X_lt z _ _ _ _ _ _ _) (xor7X_lt z _ _ _ _ _ _ _) (xor7X_lt z _ _ _ _ _ _ _) (xor7X_lt z _ _ _ _ _ _ _)

theorem X_ariaA_14 (z : Block) :
    X (ariaA z) 14 = X z 0 ^^^ X z 3 ^^^ X z 4 ^^^ X z 5 ^^^ X z 9 ^^^ X z 11 ^^^ X z 14 := by
  rw [X_def_14, ariaA_w3]
  exact unpack8 (xor7X_lt z _ _ _ _ _ _ _) (xor7X_lt z _ _ _ _ _ _ _) (xor7X_lt z _ _ _ _ _ _ _) (xor7X_lt z _ _ _ _ _ _ _)

theorem X_ariaA_15 (z : Block) :
    X (ariaA z) 15 = X z 1 ^^^ X z 2 ^^^ X z 4 ^^^ X z 5 ^^^ X z 8 ^^^ X z 10 ^^^ X z 15 := by
  rw [X_def_15, ariaA_w3]
  exact unpack0 (xor7X_lt z _ _ _ _ _ _ _) (xor7X_lt z _ _ _ _ _ _ _) (xor7X_lt z _ _ _ _ _ _ _) (xor7X_lt z _ _ _ _ _ _ _)

/-! ### Substitution-layer inverses and diffusion-layer algebra -/

theorem pack_congr {a b c d e f g h : Nat} (h1 : a = e) (h2 : b = f)
    (h3 : c = g) (h4 : d = h) : pack a b c d = pack e f g h := by
  rw [h1, h2, h3, h4]

theorem xor_interleave (a1 b1 a2 b2 a3 b3 a4 b4 a5 b5 a6 b6 a7 b7 : Nat) :
    (a1 ^^^ b1) ^^^ (a2 ^^^ b2) ^^^ (a3 ^^^ b3) ^^^ (a4 ^^^ b4) ^^^ (a5 ^^^ b5) ^^^
      (a6 ^^^ b6) ^^^ (a7 ^^^ b7) =
    (a1 ^^^ a2 ^^^ a3 ^^^ a4 ^^^ a5 ^^^ a6 ^^^ a7) ^^^
      (b1 ^^^ b2 ^^^ b3 ^^^ b4 ^^^ b5 ^^^ b6 ^^^ b7) := by
  simp only [Nat.xor_assoc, Nat.xor_comm, xor_left_comm]

theorem SL1_SL2 (x : Block) (hx : x.Valid) : SL1 (SL2 x) = x := by
  obtain ⟨h0, h1, h2, h3⟩ := hx
  refine Block.ext ?_ ?_ ?_ ?_
  · rw [SL1_w0,
      X_SL2_0,
      X_SL2_1,
      X_SL2_2,
      X_SL2_3,
      sb_inv_31 _ (X_lt x 0),
      sb_inv_42 _ (X_lt x 1),
      sb_inv_13 _ (X_lt x 2),
      sb_inv_24 _ (X_lt x 3),
      X_def_0,
      X_def_1,
      X_def_2,
      X_def_3]
    exact pack_unpack h0
  · rw [SL1_w1,
      X_SL2_4,
      X_SL2_5,
      X_SL2_6,
      X_SL2_7,
      sb_inv_31 _ (X_lt x 4),
      sb_inv_42 _ (X_lt x 5),
      sb_inv_13 _ (X_lt x 6),
      sb_inv_24 _ (X_lt x 7),
      X_def_4,
      X_def_5,
      X_def_6,
      X_def_7]
    exact pack_unpack h1
  · rw [SL1_w2,
      X_SL2_8,
      X_SL2_9,
      X_SL2_10,
      X_SL2_11,
      sb_inv_31 _ (X_lt x 8),
      sb_inv_42 _ (X_lt x 9),
      sb_inv_13 _ (X_lt x 10),
      sb_inv_24 _ (X_lt x 11),
      X_def_8,
      X_def_9,
      X_def_10,
      X_def_11]
    exact pack_unpack h2
  · rw [SL1_w3,
      X_SL2_12,
      X_SL2_13,
      X_SL2_14,
      X_SL2_15,
      sb_inv_31 _ (X_lt x 12),
      sb_inv_42 _ (X_lt x 13),
      sb_inv_13 _ (X_lt x 14),
      sb_inv_24 _ (X_lt x 15),
      X_def_12,
      X_def_13,
      X_def_14,
      X_def_15]
    exact pack_unpack h3

theorem SL2_SL1 (x : Block) (hx : x.Valid) : SL2 (SL1 x) = x := by
  obtain ⟨h0, h1, h2, h3⟩ := hx
  refine Block.ext ?_ ?_ ?_ ?_
  · rw [SL2_w0,
      X_SL1_0,
      X_SL1_1,
      X_SL1_2,
      X_SL1_3,
      sb_inv_13 _ (X_lt x 0),
      sb_inv_24 _ (X_lt x 1),
      sb_inv_31 _ (X_lt x 2),
      sb_inv_42 _ (X_lt x 3),
      X_def_0,
      X_def_1,
      X_def_2,
      X_def_3]
    exact pack_unpack h0
  · rw [SL2_w1,
      X_SL1_4,
      X_SL1_5,
      X_SL1_6,
      X_SL1_7,
      sb_inv_13 _ (X_lt x 4),
      sb_inv_24 _ (X_lt x 5),
      sb_inv_31 _ (X_lt x 6),
      sb_inv_42 _ (X_lt x 7),
      X_def_4,
      X_def_5,
      X_def_6,
      X_def_7]
    exact pack_unpack h1
  · rw [SL2_w2,
      X_SL1_8,
      X_SL1_9,
      X_SL1_10,
      X_SL1_11,
      sb_inv_13 _ (X_lt x 8),
      sb_inv_24 _ (X_lt x 9),
      sb_inv_31 _ (X_lt x 10),
      sb_inv_42 _ (X_lt x 11),
      X_def_8,
      X_def_9,
      X_def_10,
      X_def_11]
    exact pack_unpack h2
  · rw [SL2_w3,
      X_SL1_12,
      X_SL1_13,
      X_SL1_14,
      X_SL1_15,
      sb_inv_13 _ (X_lt x 12),
      sb_inv_24 _ (X_lt x 13),
      sb_inv_31 _ (X_lt x 14),
      sb_inv_42 _ (X_lt x 15),
      X_def_12,
      X_def_13,
      X_def_14,
      X_def_15]
    exact pack_unpack h3

theorem ariaA_xor (x y : Block) : ariaA (xor128 x y) = xor128 (ariaA x) (ariaA y) := by
  refine Block.ext ?_ ?_ ?_ ?_
  · show (ariaA (xor128 x y)).w0 = (ariaA x).w0 ^^^ (ariaA y).w0
    simp only [ariaA_w0, X_xor]
    rw [xor_interleave, xor_interleave, xor_interleave, xor_interleave]
    exact (pack_xor _ _ (xor7X_lt x _ _ _ _ _ _ _) (xor7X_lt x _ _ _ _ _ _ _)
      (xor7X_lt x _ _ _ _ _ _ _) (xor7X_lt y _ _ _ _ _ _ _)
      (xor7X_lt y _ _ _ _ _ _ _) (xor7X_lt y _ _ _ _ _ _ _)).symm
  · show (ariaA (xor128 x y)).w1 = (ariaA x).w1 ^^^ (ariaA y).w1
    simp only [ariaA_w1, X_xor]
    rw [xor_interleave, xor_interleave, xor_interleave, xor_interleave]
    exact (pack_xor _ _ (xor7X_lt x _ _ _ _ _ _ _) (xor7X_lt x _ _ _ _ _ _ _)
      (xor7X_lt x _ _ _ _ _ _ _) (xor7X_lt y _ _ _ _ _ _ _)
      (xor7X_lt y _ _ _ _ _ _ _) (xor7X_lt y _ _ _ _ _ _ _)).symm
  · show (ariaA (xor128 x y)).w2 = (ariaA x).w2 ^^^ (ariaA y).w2
    simp only [ariaA_w2, X_xor]
    rw [xor_interleave, xor_interleave, xor_interleave, xor_interleave]
    exact (pack_xor _ _ (xor7X_lt x _ _ _ _ _ _ _) (xor7X_lt x _ _ _ _ _ _ _)
      (xor7X_lt x _ _ _ _ _ _ _) (xor7X_lt y _ _ _ _ _ _ _)
      (xor7X_lt y _ _ _ _ _ _ _) (xor7X_lt y _ _ _ _ _ _ _)).symm
  · show (ariaA (xor128 x y)).w3 = (ariaA x).w3 ^^^ (ariaA y).w3
    simp only [ariaA_w3, X_xor]
    rw [xor_interleave, xor_interleave, xor_interleave, xor_interleave]
    exact (pack_xor _ _ (xor7X_lt x _ _ _ _ _ _ _) (xor7X_lt x _ _ _ _ _ _ _)
      (xor7X_lt x _ _ _ _ _ _ _) (xor7X_lt y _ _ _ _ _ _ _)
      (xor7X_lt y _ _ _ _ _ _ _) (xor7X_lt y _ _ _ _ _ _ _)).symm

theorem ariaA_involutive (x : Block) (hx : x.Valid) : ariaA (ariaA x) = x := by
  obtain ⟨h0, h1, h2, h3⟩ := hx
  refine Block.ext ?_ ?_ ?_ ?_
  · rw [ariaA_w0]
    simp only [X_ariaA_0, X_ariaA_1, X_ariaA_2, X_ariaA_3, X_ariaA_4, X_ariaA_5, X_ariaA_6, X_ariaA_7, X_ariaA_8, X_ariaA_9, X_ariaA_10, X_ariaA_11, X_ariaA_12, X_ariaA_13, X_ariaA_14, X_ariaA_15]
    conv_rhs => rw [← pack_unpack h0]
    rw [← X_def_0, ← X_def_1, ← X_def_2, ← X_def_3]
    generalize X x 0 = b0
    generalize X x 1 = b1
    generalize X x 2 = b2
    generalize X x 3 = b3
    generalize X x 4 = b4
    generalize X x 5 = b5
    generalize X x 6 = b6
    generalize X x 7 = b7
    generalize X x 8 = b8
    generalize X x 9 = b9
    generalize X x 10 = b10
    generalize X x 11 = b11
    generalize X x 12 = b12
    generalize X x 13 = b13
    generalize X x 14 = b14
    generalize X x 15 = b15
    refine pack_congr ?_ ?_ ?_ ?_ <;>
      simp only [Nat.xor_assoc, Nat.xor_comm, xor_left_comm, Nat.xor_self,
        Nat.xor_zero, Nat.zero_xor, Nat.xor_cancel_left, Nat.xor_cancel_right]
  · rw [ariaA_w1]
    simp only [X_ariaA_0, X_ariaA_1, X_ariaA_2, X_ariaA_3, X_ariaA_4, X_ariaA_5, X_ariaA_6, X_ariaA_7, X_ariaA_8, X_ariaA_9, X_ariaA_10, X_ariaA_11, X_ariaA_12, X_ariaA_13, X_ariaA_14, X_ariaA_15]
    conv_rhs => rw [← pack_unpack h1]
    rw [← X_def_4, ← X_def_5, ← X_def_6, ← X_def_7]
    generalize X x 0 = b0
    generalize X x 1 = b1
    generalize X x 2 = b2
    generalize X x 3 = b3
    generalize X x 4 = b4
    generalize X x 5 = b5
    generalize X x 6 = b6
    generalize X x 7 = b7
    generalize X x 8 = b8
    generalize X x 9 = b9
    generalize X x 10 = b10
    generalize X x 11 = b11
    generalize X x 12 = b12
    generalize X x 13 = b13
    generalize X x 14 = b14
    generalize X x 15 = b15
    refine pack_congr ?_ ?_ ?_ ?_ <;>
      simp only [Nat.xor_assoc, Nat.xor_comm, xor_left_comm, Nat.xor_self,
        Nat.xor_zero, Nat.zero_xor, Nat.xor_cancel_left, Nat.xor_cancel_right]
  · rw [ariaA_w2]
    simp only [X_ariaA_0, X_ariaA_1, X_ariaA_2, X_ariaA_3, X_ariaA_4, X_ariaA_5, X_ariaA_6, X_ariaA_7, X_ariaA_8, X_ariaA_9, X_ariaA_10, X_ariaA_11, X_ariaA_12, X_ariaA_13, X_ariaA_14, X_ariaA_15]
    conv_rhs => rw [← pack_unpack h2]
    rw [← X_def_8, ← X_def_9, ← X_def_10, ← X_def_11]
    generalize X x 0 = b0
    generalize X x 1 = b1
    generalize X x 2 = b2
    generalize X x 3 = b3
    generalize X x 4 = b4
    generalize X x 5 = b5
    generalize X x 6 = b6
    generalize X x 7 = b7
    generalize X x 8 = b8
    generalize X x 9 = b9
    generalize X x 10 = b10
    generalize X x 11 = b11
    generalize X x 12 = b12
    generalize X x 13 = b13
    generalize X x 14 = b14
    generalize X x 15 = b15
    refine pack_congr ?_ ?_ ?_ ?_ <;>
      simp only [Nat.xor_assoc, Nat.xor_comm, xor_left_comm, Nat.xor_self,
        Nat.xor_zero, Nat.zero_xor, Nat.xor_cancel_left, Nat.xor_cancel_right]
  · rw [ariaA_w3]
    simp only [X_ariaA_0, X_ariaA_1, X_ariaA_2, X_ariaA_3, X_ariaA_4, X_ariaA_5, X_ariaA_6, X_ariaA_7, X_ariaA_8, X_ariaA_9, X_ariaA_10, X_ariaA_11, X_ariaA_12, X_ariaA_13, X_ariaA_14, X_ariaA_15]
    conv_rhs => rw [← pack_unpack h3]
    rw [← X_def_12, ← X_def_13, ← X_def_14, ← X_def_15]
    generalize X x 0 = b0
    generalize X x 1 = b1
    generalize X x 2 = b2
    generalize X x 3 = b3
    generalize X x 4 = b4
    generalize X x 5 = b5
    generalize X x 6 = b6
    generalize X x 7 = b7
    generalize X x 8 = b8
    generalize X x 9 = b9
    generalize X x 10 = b10
    generalize X x 11 = b11
    generalize X x 12 = b12
    generalize X x 13 = b13
    generalize X x 14 = b14
    generalize X x 15 = b15
    refine pack_congr ?_ ?_ ?_ ?_ <;>
      simp only [Nat.xor_assoc, Nat.xor_comm, xor_left_comm, Nat.xor_self,
        Nat.xor_zero, Nat.zero_xor, Nat.xor_cancel_left, Nat.xor_cancel_right]

/-! ### Key-schedule validity and decryption-key indexing -/

theorem wldKey_valid {key : List Nat} (hkey : ∀ b ∈ key, b < 256)
    (keyLen i : Nat) : wldKey key keyLen i < 2 ^ 32 := by
  unfold wldKey
  split
  · exact load32BE_valid hkey _
  · norm_num

theorem ariaKL_valid {key : List Nat} (hkey : ∀ b ∈ key, b < 256) (keyLen : Nat) :
    (ariaKL key keyLen).Valid :=
  ⟨wldKey_valid hkey _ _, wldKey_valid hkey _ _, wldKey_valid hkey _ _,
   wldKey_valid hkey _ _⟩

theorem ariaKR_valid {key : List Nat} (hkey : ∀ b ∈ key, b < 256) (keyLen : Nat) :
    (ariaKR key keyLen).Valid :=
  ⟨wldKey_valid hkey _ _, wldKey_valid hkey _ _, wldKey_valid hkey _ _,
   wldKey_valid hkey _ _⟩

theorem ariaW1_valid {key : List Nat} (hkey : ∀ b ∈ key, b < 256)
    (keyLen : Nat) (ck1 : Block) : (ariaW1 key keyLen ck1).Valid :=
  xor128_valid (OF_valid _ _) (ariaKR_valid hkey _)

theorem ariaW2_valid {key : List Nat} (hkey : ∀ b ∈ key, b < 256)
    (keyLen : Nat) (ck1 ck2 : Block) : (ariaW2 key keyLen ck1 ck2).Valid :=
  xor128_valid (EF_valid _ _) (ariaKL_valid hkey _)

theorem ariaW3_valid {key : List Nat} (hkey : ∀ b ∈ key, b < 256)
    (keyLen : Nat) (ck1 ck2 ck3 : Block) : (ariaW3 key keyLen ck1 ck2 ck3).Valid :=
  xor128_valid (OF_valid _ _) (ariaW1_valid hkey _ _)

theorem ariaEk_getD_valid {key : List Nat} (hkey : ∀ b ∈ key, b < 256)
    (keyLen : Nat) (ck1 ck2 ck3 : Block) (i : Nat) :
    ((ariaEk key keyLen ck1 ck2 ck3).getD i default).Valid := by
  have hkl := ariaKL_valid hkey keyLen
  have h1 := ariaW1_valid hkey keyLen ck1
  have h2 := ariaW2_valid hkey keyLen ck1 ck2
  have h3 := ariaW3_valid hkey keyLen ck1 ck2 ck3
  simp only [ariaEk]
  rcases i with _|_|_|_|_|_|_|_|_|_|_|_|_|_|_|_|_|i <;>
    simp only [Nat.succ_eq_add_one, List.getD_cons_zero, List.getD_cons_succ,
      List.getD_nil]
  · exact xor128_valid (rol128_valid _ _) hkl
  · exact xor128_valid (rol128_valid _ _) h1
  · exact xor128_valid (rol128_valid _ _) h2
  · exact xor128_valid (rol128_valid _ _) h3
  · exact xor128_valid (rol128_valid _ _) hkl
  · exact xor128_valid (rol128_valid _ _) h1
  · exact xor128_valid (rol128_valid _ _) h2
  · exact xor128_valid (rol128_valid _ _) h3
  · exact xor128_valid (rol128_valid _ _) hkl
  · exact xor128_valid (rol128_valid _ _) h1
  · exact xor128_valid (rol128_valid _ _) h2
  · exact xor128_valid (rol128_valid _ _) h3
  · exact xor128_valid (rol128_valid _ _) hkl
  · exact xor128_valid (rol128_valid _ _) h1
  · exact xor128_valid (rol128_valid _ _) h2
  · exact xor128_valid (rol128_valid _ _) h3
  · exact xor128_valid (rol128_valid _ _) hkl
  · decide

theorem ariaDk_getD_zero (ek : List Block) (nr : Nat) :
    (ariaDk ek nr).getD 0 default = ek.getD nr default := rfl

theorem ariaDk_getD_last (ek : List Block) (nr : Nat) (h : 1 ≤ nr) :
    (ariaDk ek nr).getD nr default = ek.getD 0 default := by
  unfold ariaDk
  rw [List.getD_eq_getElem?_getD, List.getElem?_append_right (by simp; omega)]
  simp only [List.length_cons, List.length_map, List.length_range]
  rw [show nr - (nr - 1 + 1) = 0 by omega]
  rfl

theorem ariaDk_getD_mid (ek : List Block) (nr i : Nat) (h1 : 1 ≤ i)
    (h2 : i ≤ nr - 1) :
    (ariaDk ek nr).getD i default = ariaA (ek.getD (nr - i) default) := by
  rcases i with _ | i
  · omega
  · unfold ariaDk
    rw [List.getD_eq_getElem?_getD, List.getElem?_append_left (by simp; omega),
      List.getElem?_cons_succ, List.getElem?_map, List.getElem?_range (by omega)]
    simp

/-! ### The block transform as an explicit round chain -/

/-- The eleven rounds applied unconditionally at the top of
`ariaEncryptBlock`/`ariaDecryptBlock`. -/
def rounds11 (rk : Nat → Block) (x : Block) : Block :=
  OF (EF (OF (EF (OF (EF (OF (EF (OF (EF (OF x
    (rk 0)) (rk 1)) (rk 2)) (rk 3)) (rk 4)) (rk 5)) (rk 6)) (rk 7)) (rk 8)) (rk 9)) (rk 10)

/-- The whole 12-round transform (128-bit-key branch). -/
def chain12 (rk : Nat → Block) (x : Block) : Block :=
  xor128 (SL2 (xor128 (rounds11 rk x) (rk 11))) (rk 12)

/-- The whole 14-round transform (192-bit-key branch). -/
def chain14 (rk : Nat → Block) (x : Block) : Block :=
  xor128 (SL2 (xor128 (OF (EF (rounds11 rk x) (rk 11)) (rk 12)) (rk 13))) (rk 14)

/-- The whole 16-round transform (256-bit-key branch). -/
def chain16 (rk : Nat → Block) (x : Block) : Block :=
  xor128 (SL2 (xor128 (OF (EF (OF (EF (rounds11 rk x) (rk 11)) (rk 12)) (rk 13))
    (rk 14)) (rk 15))) (rk 16)

theorem encryptBlock_eq12 (ctx : AriaContext) (input : List Nat)
    (h : ctx.nr = 12) :
    ariaEncryptBlock ctx input =
      storeBlock (chain12 (fun i => ctx.ek.getD i default) (loadBlock input)) := by
  obtain ⟨nr, E, D⟩ := ctx
  have h' : nr = 12 := h
  subst h'
  rfl

theorem encryptBlock_eq14 (ctx : AriaContext) (input : List Nat)
    (h : ctx.nr = 14) :
    ariaEncryptBlock ctx input =
      storeBlock (chain14 (fun i => ctx.ek.getD i default) (loadBlock input)) := by
  obtain ⟨nr, E, D⟩ := ctx
  have h' : nr = 14 := h
  subst h'
  rfl

theorem encryptBlock_eq16 (ctx : AriaContext) (input : List Nat)
    (h : ctx.nr = 16) :
    ariaEncryptBlock ctx input =
      storeBlock (chain16 (fun i => ctx.ek.getD i default) (loadBlock input)) := by
  obtain ⟨nr, E, D⟩ := ctx
  have h' : nr = 16 := h
  subst h'
  rfl

theorem decryptBlock_eq12 (ctx : AriaContext) (input : List Nat)
    (h : ctx.nr = 12) :
    ariaDecryptBlock ctx input =
      storeBlock (chain12 (fun i => ctx.dk.getD i default) (loadBlock input)) := by
  obtain ⟨nr, E, D⟩ := ctx
  have h' : nr = 12 := h
  subst h'
  rfl

theorem decryptBlock_eq14 (ctx : AriaContext) (input : List Nat)
    (h : ctx.nr = 14) :
    ariaDecryptBlock ctx input =
      storeBlock (chain14 (fun i => ctx.dk.getD i default) (loadBlock input)) := by
  obtain ⟨nr, E, D⟩ := ctx
  have h' : nr = 14 := h
  subst h'
  rfl

theorem decryptBlock_eq16 (ctx : AriaContext) (input : List Nat)
    (h : ctx.nr = 16) :
    ariaDecryptBlock ctx input =
      storeBlock (chain16 (fun i => ctx.dk.getD i default) (loadBlock input)) := by
  obtain ⟨nr, E, D⟩ := ctx
  have h' : nr = 16 := h
  subst h'
  rfl

theorem chain12_valid (rk : Nat → Block) (x : Block) (h : (rk 12).Valid) :
    (chain12 rk x).Valid := xor128_valid (SL2_valid _) h

theorem chain14_valid (rk : Nat → Block) (x : Block) (h : (rk 14).Valid) :
    (chain14 rk x).Valid := xor128_valid (SL2_valid _) h

theorem chain16_valid (rk : Nat → Block) (x : Block) (h : (rk 16).Valid) :
    (chain16 rk x).Valid := xor128_valid (SL2_valid _) h

/-! ### Inverse of the round chain -/

theorem xor128_cancel (z e : Block) : xor128 (xor128 z e) e = z := by
  refine Block.ext ?_ ?_ ?_ ?_ <;> exact Nat.xor_cancel_right _ _

theorem dec_start (p e1 e2 : Block) (hp : p.Valid) (he1 : e1.Valid) :
    OF (xor128 (SL2 (xor128 p e1)) e2) e2 = ariaA (xor128 p e1) := by
  unfold OF
  rw [xor128_cancel, SL1_SL2 _ (xor128_valid hp he1)]

theorem dec_stepEF (p e1 e2 : Block) (hp : p.Valid) (he2 : e2.Valid) :
    EF (ariaA (xor128 (OF p e2) e1)) (ariaA e1) = ariaA (xor128 p e2) := by
  unfold EF
  rw [← ariaA_xor, xor128_cancel]
  unfold OF
  rw [ariaA_involutive (SL1 (xor128 p e2)) (SL1_valid _),
    SL2_SL1 _ (xor128_valid hp he2)]

theorem dec_stepOF (p e1 e2 : Block) (hp : p.Valid) (he2 : e2.Valid) :
    OF (ariaA (xor128 (EF p e2) e1)) (ariaA e1) = ariaA (xor128 p e2) := by
  unfold OF
  rw [← ariaA_xor, xor128_cancel]
  unfold EF
  rw [ariaA_involutive (SL2 (xor128 p e2)) (SL2_valid _),
    SL1_SL2 _ (xor128_valid hp he2)]

theorem dec_end (p e0 e1 : Block) (hp : p.Valid) (he0 : e0.Valid) :
    xor128 (SL2 (xor128 (ariaA (xor128 (OF p e0) e1)) (ariaA e1))) e0 = p := by
  rw [← ariaA_xor, xor128_cancel]
  unfold OF
  rw [ariaA_involutive (SL1 (xor128 p e0)) (SL1_valid _),
    SL2_SL1 _ (xor128_valid hp he0)]
  exact xor128_cancel p e0

theorem chain12_inv (g d : Nat → Block) (hg : ∀ i, (g i).Valid)
    (hd0 : d 0 = g 12)
    (hdm : ∀ i, 1 ≤ i → i ≤ 11 → d i = ariaA (g (12 - i)))
    (hd12 : d 12 = g 0)
    (x : Block) (hx : x.Valid) :
    chain12 d (chain12 g x) = x := by
  have hd1 : d 1 = ariaA (g 11) := hdm 1 (by norm_num) (by norm_num)
  have hd2 : d 2 = ariaA (g 10) := hdm 2 (by norm_num) (by norm_num)
  have hd3 : d 3 = ariaA (g 9) := hdm 3 (by norm_num) (by norm_num)
  have hd4 : d 4 = ariaA (g 8) := hdm 4 (by norm_num) (by norm_num)
  have hd5 : d 5 = ariaA (g 7) := hdm 5 (by norm_num) (by norm_num)
  have hd6 : d 6 = ariaA (g 6) := hdm 6 (by norm_num) (by norm_num)
  have hd7 : d 7 = ariaA (g 5) := hdm 7 (by norm_num) (by norm_num)
  have hd8 : d 8 = ariaA (g 4) := hdm 8 (by norm_num) (by norm_num)
  have hd9 : d 9 = ariaA (g 3) := hdm 9 (by norm_num) (by norm_num)
  have hd10 : d 10 = ariaA (g 2) := hdm 10 (by norm_num) (by norm_num)
  have hd11 : d 11 = ariaA (g 1) := hdm 11 (by norm_num) (by norm_num)
  unfold chain12 rounds11
  rw [hd0, hd1, hd2, hd3, hd4, hd5, hd6, hd7, hd8, hd9, hd10, hd11, hd12]
  rw [dec_start _ _ _ (OF_valid _ _) (hg 11)]
  rw [dec_stepEF _ _ _ (EF_valid _ _) (hg 10)]
  rw [dec_stepOF _ _ _ (OF_valid _ _) (hg 9)]
  rw [dec_stepEF _ _ _ (EF_valid _ _) (hg 8)]
  rw [dec_stepOF _ _ _ (OF_valid _ _) (hg 7)]
  rw [dec_stepEF _ _ _ (EF_valid _ _) (hg 6)]
  rw [dec_stepOF _ _ _ (OF_valid _ _) (hg 5)]
  rw [dec_stepEF _ _ _ (EF_valid _ _) (hg 4)]
  rw [dec_stepOF _ _ _ (OF_valid _ _) (hg 3)]
  rw [dec_stepEF _ _ _ (EF_valid _ _) (hg 2)]
  rw [dec_stepOF _ _ _ (OF_valid _ _) (hg 1)]
  rw [dec_end _ _ _ hx (hg 0)]

theorem chain14_inv (g d : Nat → Block) (hg : ∀ i, (g i).Valid)
    (hd0 : d 0 = g 14)
    (hdm : ∀ i, 1 ≤ i → i ≤ 13 → d i = ariaA (g (14 - i)))
    (hd14 : d 14 = g 0)
    (x : Block) (hx : x.Valid) :
    chain14 d (chain14 g x) = x := by
  have hd1 : d 1 = ariaA (g 13) := hdm 1 (by norm_num) (by norm_num)
  have hd2 : d 2 = ariaA (g 12) := hdm 2 (by norm_num) (by norm_num)
  have hd3 : d 3 = ariaA (g 11) := hdm 3 (by norm_num) (by norm_num)
  have hd4 : d 4 = ariaA (g 10) := hdm 4 (by norm_num) (by norm_num)
  have hd5 : d 5 = ariaA (g 9) := hdm 5 (by norm_num) (by norm_num)
  have hd6 : d 6 = ariaA (g 8) := hdm 6 (by norm_num) (by norm_num)
  have hd7 : d 7 = ariaA (g 7) := hdm 7 (by norm_num) (by norm_num)
  have hd8 : d 8 = ariaA (g 6) := hdm 8 (by norm_num) (by norm_num)
  have hd9 : d 9 = ariaA (g 5) := hdm 9 (by norm_num) (by norm_num)
  have hd10 : d 10 = ariaA (g 4) := hdm 10 (by norm_num) (by norm_num)
  have hd11 : d 11 = ariaA (g 3) := hdm 11 (by norm_num) (by norm_num)
  have hd12 : d 12 = ariaA (g 2) := hdm 12 (by norm_num) (by norm_num)
  have hd13 : d 13 = ariaA (g 1) := hdm 13 (by norm_num) (by norm_num)
  unfold chain14 rounds11
  rw [hd0, hd1, hd2, hd3, hd4, hd5, hd6, hd7, hd8, hd9, hd10, hd11, hd12, hd13, hd14]
  rw [dec_start _ _ _ (OF_valid _ _) (hg 13)]
  rw [dec_stepEF _ _ _ (EF_valid _ _) (hg 12)]
  rw [dec_stepOF _ _ _ (OF_valid _ _) (hg 11)]
  rw [dec_stepEF _ _ _ (EF_valid _ _) (hg 10)]
  rw [dec_stepOF _ _ _ (OF_valid _ _) (hg 9)]
  rw [dec_stepEF _ _ _ (EF_valid _ _) (hg 8)]
  rw [dec_stepOF _ _ _ (OF_valid _ _) (hg 7)]
  rw [dec_stepEF _ _ _ (EF_valid _ _) (hg 6)]
  rw [dec_stepOF _ _ _ (OF_valid _ _) (hg 5)]
  rw [dec_stepEF _ _ _ (EF_valid _ _) (hg 4)]
  rw [dec_stepOF _ _ _ (OF_valid _ _) (hg 3)]
  rw [dec_stepEF _ _ _ (EF_valid _ _) (hg 2)]
  rw [dec_stepOF _ _ _ (OF_valid _ _) (hg 1)]
  rw [dec_end _ _ _ hx (hg 0)]

theorem chain16_inv (g d : Nat → Block) (hg : ∀ i, (g i).Valid)
    (hd0 : d 0 = g 16)
    (hdm : ∀ i, 1 ≤ i → i ≤ 15 → d i = ariaA (g (16 - i)))
    (hd16 : d 16 = g 0)
    (x : Block) (hx : x.Valid) :
    chain16 d (chain16 g x) = x := by
  have hd1 : d 1 = ariaA (g 15) := hdm 1 (by norm_num) (by norm_num)
  have hd2 : d 2 = ariaA (g 14) := hdm 2 (by norm_num) (by norm_num)
  have hd3 : d 3 = ariaA (g 13) := hdm 3 (by norm_num) (by norm_num)
  have hd4 : d 4 = ariaA (g 12) := hdm 4 (by norm_num) (by norm_num)
  have hd5 : d 5 = ariaA (g 11) := hdm 5 (by norm_num) (by norm_num)
  have hd6 : d 6 = ariaA (g 10) := hdm 6 (by norm_num) (by norm_num)
  have hd7 : d 7 = ariaA (g 9) := hdm 7 (by norm_num) (by norm_num)
  have hd8 : d 8 = ariaA (g 8) := hdm 8 (by norm_num) (by norm_num)
  have hd9 : d 9 = ariaA (g 7) := hdm 9 (by norm_num) (by norm_num)
  have hd10 : d 10 = ariaA (g 6) := hdm 10 (by norm_num) (by norm_num)
  have hd11 : d 11 = ariaA (g 5) := hdm 11 (by norm_num) (by norm_num)
  have hd12 : d 12 = ariaA (g 4) := hdm 12 (by norm_num) (by norm_num)
  have hd13 : d 13 = ariaA (g 3) := hdm 13 (by norm_num) (by norm_num)
  have hd14 : d 14 = ariaA (g 2) := hdm 14 (by norm_num) (by norm_num)
  have hd15 : d 15 = ariaA (g 1) := hdm 15 (by norm_num) (by norm_num)
  unfold chain16 rounds11
  rw [hd0, hd1, hd2, hd3, hd4, hd5, hd6, hd7, hd8, hd9, hd10, hd11, hd12, hd13, hd14, hd15, hd16]
  rw [dec_start _ _ _ (OF_valid _ _) (hg 15)]
  rw [dec_stepEF _ _ _ (EF_valid _ _) (hg 14)]
  rw [dec_stepOF _ _ _ (OF_valid _ _) (hg 13)]
  rw [dec_stepEF _ _ _ (EF_valid _ _) (hg 12)]
  rw [dec_stepOF _ _ _ (OF_valid _ _) (hg 11)]
  rw [dec_stepEF _ _ _ (EF_valid _ _) (hg 10)]
  rw [dec_stepOF _ _ _ (OF_valid _ _) (hg 9)]
  rw [dec_stepEF _ _ _ (EF_valid _ _) (hg 8)]
  rw [dec_stepOF _ _ _ (OF_valid _ _) (hg 7)]
  rw [dec_stepEF _ _ _ (EF_valid _ _) (hg 6)]
  rw [dec_stepOF _ _ _ (OF_valid _ _) (hg 5)]
  rw [dec_stepEF _ _ _ (EF_valid _ _) (hg 4)]
  rw [dec_stepOF _ _ _ (OF_valid _ _) (hg 3)]
  rw [dec_stepEF _ _ _ (EF_valid _ _) (hg 2)]
  rw [dec_stepOF _ _ _ (OF_valid _ _) (hg 1)]
  rw [dec_end _ _ _ hx (hg 0)]

/-! ### Context construction and byte-buffer round trips -/

theorem ariaInit_16 (key : List Nat) :
    ariaInit false false key 16 =
      Except.ok (ariaKeySetup key 16 12 (ckBlock 0) (ckBlock 4) (ckBlock 8)) := rfl

theorem ariaInit_24 (key : List Nat) :
    ariaInit false false key 24 =
      Except.ok (ariaKeySetup key 24 14 (ckBlock 4) (ckBlock 8) (ckBlock 0)) := rfl

theorem ariaInit_32 (key : List Nat) :
    ariaInit false false key 32 =
      Except.ok (ariaKeySetup key 32 16 (ckBlock 8) (ckBlock 0) (ckBlock 4)) := rfl

theorem ariaInit_bad (key : List Nat) (keyLen : Nat) (h16 : keyLen ≠ 16)
    (h24 : keyLen ≠ 24) (h32 : keyLen ≠ 32) :
    ariaInit false false key keyLen =
      Except.error ErrorCode.ERROR_INVALID_KEY_LENGTH := by
  unfold ariaInit
  rw [if_neg (by simp), if_neg h16, if_neg h24, if_neg h32]

theorem keySetup_nr (key : List Nat) (keyLen nr : Nat) (c1 c2 c3 : Block) :
    (ariaKeySetup key keyLen nr c1 c2 c3).nr = nr := rfl

theorem keySetup_ek (key : List Nat) (keyLen nr : Nat) (c1 c2 c3 : Block) :
    (ariaKeySetup key keyLen nr c1 c2 c3).ek = ariaEk key keyLen c1 c2 c3 := rfl

theorem keySetup_dk (key : List Nat) (keyLen nr : Nat) (c1 c2 c3 : Block) :
    (ariaKeySetup key keyLen nr c1 c2 c3).dk =
      ariaDk (ariaEk key keyLen c1 c2 c3) nr := rfl

theorem ariaDk_length (ek : List Block) (nr : Nat) (h : 1 ≤ nr) :
    (ariaDk ek nr).length = nr + 1 := by
  simp [ariaDk]
  omega

theorem ariaDk_getD_valid {key : List Nat} (hkey : ∀ b ∈ key, b < 256)
    (keyLen : Nat) (ck1 ck2 ck3 : Block) (nr i : Nat) (hnr : 1 ≤ nr) :
    ((ariaDk (ariaEk key keyLen ck1 ck2 ck3) nr).getD i default).Valid := by
  by_cases h0 : i = 0
  · subst h0
    rw [ariaDk_getD_zero]
    exact ariaEk_getD_valid hkey _ _ _ _ _
  by_cases hm : i ≤ nr - 1
  · rw [ariaDk_getD_mid _ _ _ (by omega) hm]
    exact ariaA_valid _
  by_cases hl : i = nr
  · subst hl
    rw [ariaDk_getD_last _ _ hnr]
    exact ariaEk_getD_valid hkey _ _ _ _ _
  · rw [List.getD_eq_getElem?_getD,
      List.getElem?_eq_none (by rw [ariaDk_length _ _ hnr]; omega)]
    decide

theorem storeBlock_length (q : Block) : (storeBlock q).length = 16 := rfl

theorem storeBlock_mem_lt (q : Block) : ∀ b ∈ storeBlock q, b < 256 := by
  intro b hb
  simp only [storeBlock, store32BE, List.append_assoc, List.cons_append,
    List.nil_append, List.mem_cons, List.not_mem_nil, or_false] at hb
  rcases hb with h|h|h|h|h|h|h|h|h|h|h|h|h|h|h|h <;> subst h <;>
    exact Nat.and_lt_two_pow _ (show 0xFF < 2 ^ 8 by norm_num)

theorem loadBlock_storeBlock {q : Block} (hq : q.Valid) :
    loadBlock (storeBlock q) = q := by
  obtain ⟨h0, h1, h2, h3⟩ := hq
  refine Block.ext ?_ ?_ ?_ ?_
  · exact pack_unpack h0
  · exact pack_unpack h1
  · exact pack_unpack h2
  · exact pack_unpack h3

theorem storeBlock_loadBlock {P : List Nat} (hlen : P.length = 16)
    (hPb : ∀ b ∈ P, b < 256) : storeBlock (loadBlock P) = P := by
  rcases P with _ | ⟨b0, P⟩
  · simp at hlen
  rcases P with _ | ⟨b1, P⟩
  · simp at hlen
  rcases P with _ | ⟨b2, P⟩
  · simp at hlen
  rcases P with _ | ⟨b3, P⟩
  · simp at hlen
  rcases P with _ | ⟨b4, P⟩
  · simp at hlen
  rcases P with _ | ⟨b5, P⟩
  · simp at hlen
  rcases P with _ | ⟨b6, P⟩
  · simp at hlen
  rcases P with _ | ⟨b7, P⟩
  · simp at hlen
  rcases P with _ | ⟨b8, P⟩
  · simp at hlen
  rcases P with _ | ⟨b9, P⟩
  · simp at hlen
  rcases P with _ | ⟨b10, P⟩
  · simp at hlen
  rcases P with _ | ⟨b11, P⟩
  · simp at hlen
  rcases P with _ | ⟨b12, P⟩
  · simp at hlen
  rcases P with _ | ⟨b13, P⟩
  · simp at hlen
  rcases P with _ | ⟨b14, P⟩
  · simp at hlen
  rcases P with _ | ⟨b15, P⟩
  · simp at hlen
  obtain rfl : P = [] := by
    rcases P with _ | ⟨b16, P⟩
    · rfl
    · simp at hlen
  simp only [List.mem_cons, List.not_mem_nil, or_false, forall_eq_or_imp,
    forall_eq] at hPb
  obtain ⟨B0, B1, B2, B3, B4, B5, B6, B7, B8, B9, B10, B11, B12, B13, B14, B15⟩ := hPb
  show [pack b0 b1 b2 b3 >>> 24 &&& 0xFF,
      pack b0 b1 b2 b3 >>> 16 &&& 0xFF,
      pack b0 b1 b2 b3 >>> 8 &&& 0xFF,
      pack b0 b1 b2 b3 &&& 0xFF,
      pack b4 b5 b6 b7 >>> 24 &&& 0xFF,
      pack b4 b5 b6 b7 >>> 16 &&& 0xFF,
      pack b4 b5 b6 b7 >>> 8 &&& 0xFF,
      pack b4 b5 b6 b7 &&& 0xFF,
      pack b8 b9 b10 b11 >>> 24 &&& 0xFF,
      pack b8 b9 b10 b11 >>> 16 &&& 0xFF,
      pack b8 b9 b10 b11 >>> 8 &&& 0xFF,
      pack b8 b9 b10 b11 &&& 0xFF,
      pack b12 b13 b14 b15 >>> 24 &&& 0xFF,
      pack b12 b13 b14 b15 >>> 16 &&& 0xFF,
      pack b12 b13 b14 b15 >>> 8 &&& 0xFF,
      pack b12 b13 b14 b15 &&& 0xFF] = [b0, b1, b2, b3, b4, b5, b6, b7, b8, b9, b10, b11, b12, b13, b14, b15]
  rw [unpack24 B0 B1 B2 B3,
    unpack16 B0 B1 B2 B3,
    unpack8 B0 B1 B2 B3,
    unpack0 B0 B1 B2 B3,
    unpack24 B4 B5 B6 B7,
    unpack16 B4 B5 B6 B7,
    unpack8 B4 B5 B6 B7,
    unpack0 B4 B5 B6 B7,
    unpack24 B8 B9 B10 B11,
    unpack16 B8 B9 B10 B11,
    unpack8 B8 B9 B10 B11,
    unpack0 B8 B9 B10 B11,
    unpack24 B12 B13 B14 B15,
    unpack16 B12 B13 B14 B15,
    unpack8 B12 B13 B14 B15,
    unpack0 B12 B13 B14 B15]

/-! ### Claim C2 -/

/-- C2: for every keyLen in {16, 24, 32}, every key of that length, and every
16-byte block P, after a successful `ariaInit`, `ariaDecryptBlock` inverts
`ariaEncryptBlock` and vice versa. -/
theorem aria_block_roundTrip (key P : List Nat) (keyLen : Nat)
    (hkey : ∀ b ∈ key, b < 256) (hlen : P.length = 16)
    (hPb : ∀ b ∈ P, b < 256) (ctx : AriaContext)
    (hinit : ariaInit false false key keyLen = Except.ok ctx) :
    ariaDecryptBlock ctx (ariaEncryptBlock ctx P) = P ∧
      ariaEncryptBlock ctx (ariaDecryptBlock ctx P) = P := by
  by_cases h16 : keyLen = 16
  · subst h16
    rw [ariaInit_16] at hinit
    injection hinit with hctx
    subst hctx
    have hgv : ∀ i, ((ariaEk key 16 (ckBlock 0) (ckBlock 4) (ckBlock 8)).getD i
        default).Valid := fun i => ariaEk_getD_valid hkey _ _ _ _ i
    have hdv : ∀ i, ((ariaDk (ariaEk key 16 (ckBlock 0) (ckBlock 4) (ckBlock 8))
        12).getD i default).Valid :=
      fun i => ariaDk_getD_valid hkey _ _ _ _ 12 i (by norm_num)
    have hzero := ariaDk_getD_zero (ariaEk key 16 (ckBlock 0) (ckBlock 4) (ckBlock 8)) 12
    have hlast := ariaDk_getD_last (ariaEk key 16 (ckBlock 0) (ckBlock 4) (ckBlock 8)) 12
      (by norm_num)
    have hmid := fun i h1 h2 =>
      ariaDk_getD_mid (ariaEk key 16 (ckBlock 0) (ckBlock 4) (ckBlock 8)) 12 i h1 h2
    have hmid2 : ∀ i, 1 ≤ i → i ≤ 12 - 1 →
        (ariaEk key 16 (ckBlock 0) (ckBlock 4) (ckBlock 8)).getD i default =
          ariaA ((ariaDk (ariaEk key 16 (ckBlock 0) (ckBlock 4) (ckBlock 8))
            12).getD (12 - i) default) := by
      intro i h1 h2
      rw [hmid (12 - i) (by omega) (by omega), show 12 - (12 - i) = i by omega,
        ariaA_involutive _ (hgv i)]
    constructor
    · rw [encryptBlock_eq12 _ _ rfl, decryptBlock_eq12 _ _ rfl, keySetup_ek,
        keySetup_dk, loadBlock_storeBlock (chain12_valid _ _ (hgv 12)),
        chain12_inv _ _ hgv hzero hmid hlast _ (loadBlock_valid hPb)]
      exact storeBlock_loadBlock hlen hPb
    · rw [decryptBlock_eq12 _ _ rfl, encryptBlock_eq12 _ _ rfl, keySetup_ek,
        keySetup_dk, loadBlock_storeBlock (chain12_valid _ _ (hdv 12)),
        chain12_inv _ _ hdv hlast.symm hmid2 hzero.symm _ (loadBlock_valid hPb)]
      exact storeBlock_loadBlock hlen hPb
  by_cases h24 : keyLen = 24
  · subst h24
    rw [ariaInit_24] at hinit
    injection hinit with hctx
    subst hctx
    have hgv : ∀ i, ((ariaEk key 24 (ckBlock 4) (ckBlock 8) (ckBlock 0)).getD i
        default).Valid := fun i => ariaEk_getD_valid hkey _ _ _ _ i
    have hdv : ∀ i, ((ariaDk (ariaEk key 24 (ckBlock 4) (ckBlock 8) (ckBlock 0))
        14).getD i default).Valid :=
      fun i => ariaDk_getD_valid hkey _ _ _ _ 14 i (by norm_num)
    have hzero := ariaDk_getD_zero (ariaEk key 24 (ckBlock 4) (ckBlock 8) (ckBlock 0)) 14
    have hlast := ariaDk_getD_last (ariaEk key 24 (ckBlock 4) (ckBlock 8) (ckBlock 0)) 14
      (by norm_num)
    have hmid := fun i h1 h2 =>
      ariaDk_getD_mid (ariaEk key 24 (ckBlock 4) (ckBlock 8) (ckBlock 0)) 14 i h1 h2
    have hmid2 : ∀ i, 1 ≤ i → i ≤ 14 - 1 →
        (ariaEk key 24 (ckBlock 4) (ckBlock 8) (ckBlock 0)).getD i default =
          ariaA ((ariaDk (ariaEk key 24 (ckBlock 4) (ckBlock 8) (ckBlock 0))
            14).getD (14 - i) default) := by
      intro i h1 h2
      rw [hmid (14 - i) (by omega) (by omega), show 14 - (14 - i) = i by omega,
        ariaA_involutive _ (hgv i)]
    constructor
    · rw [encryptBlock_eq14 _ _ rfl, decryptBlock_eq14 _ _ rfl, keySetup_ek,
        keySetup_dk, loadBlock_storeBlock (chain14_valid _ _ (hgv 14)),
        chain14_inv _ _ hgv hzero hmid hlast _ (loadBlock_valid hPb)]
      exact storeBlock_loadBlock hlen hPb
    · rw [decryptBlock_eq14 _ _ rfl, encryptBlock_eq14 _ _ rfl, keySetup_ek,
        keySetup_dk, loadBlock_storeBlock (chain14_valid _ _ (hdv 14)),
        chain14_inv _ _ hdv hlast.symm hmid2 hzero.symm _ (loadBlock_valid hPb)]
      exact storeBlock_loadBlock hlen hPb
  by_cases h32 : keyLen = 32
  · subst h32
    rw [ariaInit_32] at hinit
    injection hinit with hctx
    subst hctx
    have hgv : ∀ i, ((ariaEk key 32 (ckBlock 8) (ckBlock 0) (ckBlock 4)).getD i
        default).Valid := fun i => ariaEk_getD_valid hkey _ _ _ _ i
    have hdv : ∀ i, ((ariaDk (ariaEk key 32 (ckBlock 8) (ckBlock 0) (ckBlock 4))
        16).getD i default).Valid :=
      fun i => ariaDk_getD_valid hkey _ _ _ _ 16 i (by norm_num)
    have hzero := ariaDk_getD_zero (ariaEk key 32 (ckBlock 8) (ckBlock 0) (ckBlock 4)) 16
    have hlast := ariaDk_getD_last (ariaEk key 32 (ckBlock 8) (ckBlock 0) (ckBlock 4)) 16
      (by norm_num)
    have hmid := fun i h1 h2 =>
      ariaDk_getD_mid (ariaEk key 32 (ckBlock 8) (ckBlock 0) (ckBlock 4)) 16 i h1 h2
    have hmid2 : ∀ i, 1 ≤ i → i ≤ 16 - 1 →
        (ariaEk key 32 (ckBlock 8) (ckBlock 0) (ckBlock 4)).getD i default =
          ariaA ((ariaDk (ariaEk key 32 (ckBlock 8) (ckBlock 0) (ckBlock 4))
            16).getD (16 - i) default) := by
      intro i h1 h2
      rw [hmid (16 - i) (by omega) (by omega), show 16 - (16 - i) = i by omega,
        ariaA_involutive _ (hgv i)]
    constructor
    · rw [encryptBlock_eq16 _ _ rfl, decryptBlock_eq16 _ _ rfl, keySetup_ek,
        keySetup_dk, loadBlock_storeBlock (chain16_valid _ _ (hgv 16)),
        chain16_inv _ _ hgv hzero hmid hlast _ (loadBlock_valid hPb)]
      exact storeBlock_loadBlock hlen hPb
    · rw [decryptBlock_eq16 _ _ rfl, encryptBlock_eq16 _ _ rfl, keySetup_ek,
        keySetup_dk, loadBlock_storeBlock (chain16_valid _ _ (hdv 16)),
        chain16_inv _ _ hdv hlast.symm hmid2 hzero.symm _ (loadBlock_valid hPb)]
      exact storeBlock_loadBlock hlen hPb
  · rw [ariaInit_bad key keyLen h16 h24 h32] at hinit
    simp at hinit

/-! ### Claim C1 -/

/-- RFC 5794 Appendix D plaintext block. -/
def rfcPlain : List Nat :=
  [0x00, 0x11, 0x22, 0x33, 0x44, 0x55, 0x66, 0x77,
   0x88, 0x99, 0xAA, 0xBB, 0xCC, 0xDD, 0xEE, 0xFF]

/-- RFC 5794 128-bit test key `00 01 ... 0F`. -/
def rfcKey128 : List Nat :=
  [0x00, 0x01, 0x02, 0x03, 0x04, 0x05, 0x06, 0x07,
   0x08, 0x09, 0x0A, 0x0B, 0x0C, 0x0D, 0x0E, 0x0F]

/-- RFC 5794 192-bit test key `00 01 ... 17`. -/
def rfcKey192 : List Nat :=
  [0x00, 0x01, 0x02, 0x03, 0x04, 0x05, 0x06, 0x07,
   0x08, 0x09, 0x0A, 0x0B, 0x0C, 0x0D, 0x0E, 0x0F,
   0x10, 0x11, 0x12, 0x13, 0x14, 0x15, 0x16, 0x17]

/-- RFC 5794 256-bit test key `00 01 ... 1F`. -/
def rfcKey256 : List Nat :=
  [0x00, 0x01, 0x02, 0x03, 0x04, 0x05, 0x06, 0x07,
   0x08, 0x09, 0x0A, 0x0B, 0x0C, 0x0D, 0x0E, 0x0F,
   0x10, 0x11, 0x12, 0x13, 0x14, 0x15, 0x16, 0x17,
   0x18, 0x19, 0x1A, 0x1B, 0x1C, 0x1D, 0x1E, 0x1F]

/-- Expected ciphertext for the 128-bit key. -/
def rfcCipher128 : List Nat :=
  [0xD7, 0x18, 0xFB, 0xD6, 0xAB, 0x64, 0x4C, 0x73,
   0x9D, 0xA9, 0x5F, 0x3B, 0xE6, 0x45, 0x17, 0x78]

/-- Expected ciphertext for the 192-bit key. -/
def rfcCipher192 : List Nat :=
  [0x26, 0x44, 0x9C, 0x18, 0x05, 0xDB, 0xE7, 0xAA,
   0x25, 0xA4, 0x68, 0xCE, 0x26, 0x3A, 0x9E, 0x79]

/-- Expected ciphertext for the 256-bit key. -/
def rfcCipher256 : List Nat :=
  [0xF9, 0x2B, 0xD7, 0xC7, 0x9F, 0xB7, 0x2E, 0x2F,
   0x2B, 0x8F, 0x80, 0xC1, 0x97, 0x2D, 0x24, 0xFC]

/-- One-shot helper: initialise with the given key and encrypt one block
(empty list on an initialisation error). -/
def ariaEncryptOrNil (key : List Nat) (keyLen : Nat) (pt : List Nat) : List Nat :=
  match ariaInit false false key keyLen with
  | Except.ok ctx => ariaEncryptBlock ctx pt
  | Except.error _ => []

/-- C1: with the RFC 5794 Appendix D keys (128/192/256 bits) and the shared
test plaintext, `ariaInit` followed by `ariaEncryptBlock` produces exactly
the RFC ciphertexts. -/
theorem rfc5794_test_vectors :
    ariaEncryptOrNil rfcKey128 16 rfcPlain = rfcCipher128 ∧
    ariaEncryptOrNil rfcKey192 24 rfcPlain = rfcCipher192 ∧
    ariaEncryptOrNil rfcKey256 32 rfcPlain = rfcCipher256 :=
  ⟨rfl, rfl, rfl⟩

/-! ### Claims C5 to C10 and concrete instantiations -/

/-- Context produced by `ariaInit` for the RFC 128-bit test key (used by
the concrete-input instantiations below). -/
def ctx16r : AriaContext :=
  ariaKeySetup rfcKey128 16 12 (ckBlock 0) (ckBlock 4) (ckBlock 8)

/-- C2 witness: the round trip evaluated on the RFC key and plaintext. -/
theorem aria_block_roundTrip_witness :
    ariaDecryptBlock ctx16r (ariaEncryptBlock ctx16r rfcPlain) = rfcPlain ∧
      ariaEncryptBlock ctx16r (ariaDecryptBlock ctx16r rfcPlain) = rfcPlain :=
  aria_block_roundTrip rfcKey128 rfcPlain 16 (by decide) (by decide) (by decide)
    ctx16r (ariaInit_16 rfcKey128)

/-- C5: after every successful `ariaInit`, the decryption round keys are the
reversed encryption round keys with the diffusion layer applied to the
interior ones. -/
theorem dk_from_ek (key : List Nat) (keyLen : Nat) (ctx : AriaContext)
    (hinit : ariaInit false false key keyLen = Except.ok ctx) :
    ctx.dk.getD 0 default = ctx.ek.getD ctx.nr default ∧
    ctx.dk.getD ctx.nr default = ctx.ek.getD 0 default ∧
    ∀ i, 1 ≤ i → i ≤ ctx.nr - 1 →
      ctx.dk.getD i default = ariaA (ctx.ek.getD (ctx.nr - i) default) := by
  by_cases h16 : keyLen = 16
  · subst h16
    rw [ariaInit_16] at hinit
    injection hinit with hctx
    subst hctx
    rw [keySetup_nr, keySetup_ek, keySetup_dk]
    exact ⟨ariaDk_getD_zero _ _, ariaDk_getD_last _ _ (by norm_num),
      fun i h1 h2 => ariaDk_getD_mid _ _ i h1 h2⟩
  by_cases h24 : keyLen = 24
  · subst h24
    rw [ariaInit_24] at hinit
    injection hinit with hctx
    subst hctx
    rw [keySetup_nr, keySetup_ek, keySetup_dk]
    exact ⟨ariaDk_getD_zero _ _, ariaDk_getD_last _ _ (by norm_num),
      fun i h1 h2 => ariaDk_getD_mid _ _ i h1 h2⟩
  by_cases h32 : keyLen = 32
  · subst h32
    rw [ariaInit_32] at hinit
    injection hinit with hctx
    subst hctx
    rw [keySetup_nr, keySetup_ek, keySetup_dk]
    exact ⟨ariaDk_getD_zero _ _, ariaDk_getD_last _ _ (by norm_num),
      fun i h1 h2 => ariaDk_getD_mid _ _ i h1 h2⟩
  · rw [ariaInit_bad key keyLen h16 h24 h32] at hinit
    simp at hinit

/-- C5 witness: the relations instantiated on the RFC 128-bit key context,
with the interior relation sampled at `i = 1`. -/
theorem dk_from_ek_witness :
    ctx16r.dk.getD 0 default = ctx16r.ek.getD ctx16r.nr default ∧
    ctx16r.dk.getD ctx16r.nr default = ctx16r.ek.getD 0 default ∧
    ctx16r.dk.getD 1 default = ariaA (ctx16r.ek.getD (ctx16r.nr - 1) default) :=
  ⟨(dk_from_ek rfcKey128 16 ctx16r (ariaInit_16 rfcKey128)).1,
   (dk_from_ek rfcKey128 16 ctx16r (ariaInit_16 rfcKey128)).2.1,
   (dk_from_ek rfcKey128 16 ctx16r (ariaInit_16 rfcKey128)).2.2 1 (by norm_num)
     (by decide)⟩

/-- C6: the diffusion layer `A` is an involution on every 16-byte state. -/
theorem diffusion_layer_involutive (x : Block) (hx : x.Valid) :
    ariaA (ariaA x) = x :=
  ariaA_involutive x hx

/-- C6 witness: the involution evaluated on a concrete state. -/
theorem diffusion_layer_involutive_witness :
    (Block.mk 0x00112233 0x44556677 0x8899AABB 0xCCDDEEFF).Valid ∧
    ariaA (ariaA (Block.mk 0x00112233 0x44556677 0x8899AABB 0xCCDDEEFF)) =
      Block.mk 0x00112233 0x44556677 0x8899AABB 0xCCDDEEFF :=
  ⟨by decide, diffusion_layer_involutive _ (by decide)⟩

/-- C7: with non-null context and key, every `keyLen` in `[0, 64]` outside
`{16, 24, 32}` makes `ariaInit` return `ERROR_INVALID_KEY_LENGTH`. -/
theorem init_rejects_bad_key_length (key : List Nat) (keyLen : Nat)
    (hle : keyLen ≤ 64) (h16 : keyLen ≠ 16) (h24 : keyLen ≠ 24)
    (h32 : keyLen ≠ 32) :
    ariaInit false false key keyLen =
      Except.error ErrorCode.ERROR_INVALID_KEY_LENGTH :=
  ariaInit_bad key keyLen h16 h24 h32

/-- C7 witness: rejection evaluated at `keyLen = 17`. -/
theorem init_rejects_bad_key_length_witness :
    17 ≤ 64 ∧
    ariaInit false false [] 17 =
      Except.error ErrorCode.ERROR_INVALID_KEY_LENGTH :=
  ⟨by norm_num,
   init_rejects_bad_key_length [] 17 (by norm_num) (by norm_num) (by norm_num)
     (by norm_num)⟩

/-- Round count stored by a (successful) `ariaInit`, 0 on error. -/
def initNr (key : List Nat) (keyLen : Nat) : Nat :=
  match ariaInit false false key keyLen with
  | Except.ok ctx => ctx.nr
  | Except.error _ => 0

/-- C8 counterexample: for the 24-byte key the code stores `nr = 14`, but the
claimed formula `12 + 2 * (keyLen / 8 - 16)` gives -14 over the integers
(and 12 under truncated natural subtraction) - not 14. -/
theorem nr_formula_fails_at_24 :
    initNr (List.replicate 24 0) 24 = 14 ∧
    12 + 2 * ((24 : Int) / 8 - 16) ≠ (14 : Int) ∧
    12 + 2 * ((24 : Nat) / 8 - 16) ≠ (14 : Nat) :=
  ⟨rfl, by decide, by decide⟩

/-- C8 amended: after a successful `ariaInit`, the stored round count is
`12 + 2 * ((keyLen - 16) / 8)`, i.e. 12, 14, 16 for key lengths 16, 24, 32. -/
theorem nr_value (key : List Nat) (keyLen : Nat) (ctx : AriaContext)
    (hinit : ariaInit false false key keyLen = Except.ok ctx) :
    ctx.nr = 12 + 2 * ((keyLen - 16) / 8) ∧
    (keyLen = 16 → ctx.nr = 12) ∧ (keyLen = 24 → ctx.nr = 14) ∧
    (keyLen = 32 → ctx.nr = 16) := by
  by_cases h16 : keyLen = 16
  · subst h16
    rw [ariaInit_16] at hinit
    injection hinit with hctx
    subst hctx
    exact ⟨by simp [keySetup_nr], fun _ => rfl, fun h => absurd h (by norm_num),
      fun h => absurd h (by norm_num)⟩
  by_cases h24 : keyLen = 24
  · subst h24
    rw [ariaInit_24] at hinit
    injection hinit with hctx
    subst hctx
    exact ⟨by simp [keySetup_nr], fun h => absurd h (by norm_num), fun _ => rfl,
      fun h => absurd h (by norm_num)⟩
  by_cases h32 : keyLen = 32
  · subst h32
    rw [ariaInit_32] at hinit
    injection hinit with hctx
    subst hctx
    exact ⟨by simp [keySetup_nr], fun h => absurd h (by norm_num),
      fun h => absurd h (by norm_num), fun _ => rfl⟩
  · rw [ariaInit_bad key keyLen h16 h24 h32] at hinit
    simp at hinit

/-- C8 witness: the amended formula evaluated for the RFC 128-bit key. -/
theorem nr_value_witness :
    ctx16r.nr = 12 + 2 * ((16 - 16) / 8) ∧ ctx16r.nr = 12 :=
  ⟨(nr_value rfcKey128 16 ctx16r (ariaInit_16 rfcKey128)).1,
   (nr_value rfcKey128 16 ctx16r (ariaInit_16 rfcKey128)).2.1 rfl⟩

/-- C9 counterexample: an empty key with non-null pointers is rejected with
`ERROR_INVALID_KEY_LENGTH`, not `ERROR_INVALID_PARAMETER` as the claim
states. -/
theorem init_empty_key_not_invalid_parameter :
    ariaInit false false [] 0 =
      Except.error ErrorCode.ERROR_INVALID_KEY_LENGTH ∧
    ErrorCode.ERROR_INVALID_KEY_LENGTH ≠ ErrorCode.ERROR_INVALID_PARAMETER :=
  ⟨rfl, by decide⟩

/-- C9 amended: `ariaInit` returns `ERROR_INVALID_PARAMETER` exactly when the
context or key pointer is null; an empty key with valid pointers falls through
to the key-length check and yields `ERROR_INVALID_KEY_LENGTH`. -/
theorem init_null_returns_invalid_parameter (ctxNull keyNull : Bool)
    (key : List Nat) (keyLen : Nat) (h : ctxNull = true ∨ keyNull = true) :
    ariaInit ctxNull keyNull key keyLen =
      Except.error ErrorCode.ERROR_INVALID_PARAMETER ∧
    ariaInit false false key 0 =
      Except.error ErrorCode.ERROR_INVALID_KEY_LENGTH := by
  constructor
  · unfold ariaInit
    rcases h with h | h <;> subst h <;> simp
  · exact ariaInit_bad key 0 (by norm_num) (by norm_num) (by norm_num)

/-- C9 witness: a null context pointer evaluated concretely. -/
theorem init_null_returns_invalid_parameter_witness :
    (true = true ∨ false = true) ∧
    ariaInit true false [] 16 =
      Except.error ErrorCode.ERROR_INVALID_PARAMETER ∧
    ariaInit false false [] 0 =
      Except.error ErrorCode.ERROR_INVALID_KEY_LENGTH :=
  ⟨Or.inl rfl,
   (init_null_returns_invalid_parameter true false [] 16 (Or.inl rfl)).1,
   (init_null_returns_invalid_parameter true false [] 16 (Or.inl rfl)).2⟩

/-- State of the context memory after `ariaEncryptBlock` returns, paired with
the bytes written to the output buffer. The C function body (lines 499-562 of
`aria.c`) contains no store into the context, so the context component is
returned exactly as it was passed in. -/
def ariaEncryptBlockFull (context : AriaContext) (input : List Nat) :
    AriaContext × List Nat :=
  (context, ariaEncryptBlock context input)

/-- State of the context memory after `ariaDecryptBlock` returns (lines
572-635 of `aria.c`: again no store into the context occurs). -/
def ariaDecryptBlockFull (context : AriaContext) (input : List Nat) :
    AriaContext × List Nat :=
  (context, ariaDecryptBlock context input)

/-- C10: block operations leave `nr`, `ek` and `dk` untouched, and their only
output is the 16-byte buffer (every byte below 256). -/
theorem block_ops_context_frame (key : List Nat) (keyLen : Nat)
    (ctx : AriaContext)
    (hinit : ariaInit false false key keyLen = Except.ok ctx)
    (input : List Nat) :
    (ariaEncryptBlockFull ctx input).1 = ctx ∧
    (ariaDecryptBlockFull ctx input).1 = ctx ∧
    (ariaEncryptBlockFull ctx input).2 = ariaEncryptBlock ctx input ∧
    (ariaDecryptBlockFull ctx input).2 = ariaDecryptBlock ctx input ∧
    (ariaEncryptBlock ctx input).length = 16 ∧
    (ariaDecryptBlock ctx input).length = 16 ∧
    (∀ b ∈ ariaEncryptBlock ctx input, b < 256) ∧
    (∀ b ∈ ariaDecryptBlock ctx input, b < 256) :=
  ⟨rfl, rfl, rfl, rfl, rfl, rfl, storeBlock_mem_lt _, storeBlock_mem_lt _⟩

/-- C10 witness: the frame property evaluated on the RFC context and
plaintext. -/
theorem block_ops_context_frame_witness :
    (ariaEncryptBlockFull ctx16r rfcPlain).1 = ctx16r ∧
    (ariaEncryptBlock ctx16r rfcPlain).length = 16 :=
  ⟨(block_ops_context_frame rfcKey128 16 ctx16r (ariaInit_16 rfcKey128)
      rfcPlain).1,
   (block_ops_context_frame rfcKey128 16 ctx16r (ariaInit_16 rfcKey128)
      rfcPlain).2.2.2.2.1⟩

/-! ### Claims C3 and C4: refinement against the spec-shaped schedule -/

/-- Spec §4.3 step 4 (spec-shaped): rotation amount per round group. -/
def rotAmount (i : Nat) : Nat :=
  if i ≤ 4 then 109
  else if i ≤ 8 then 97
  else if i ≤ 12 then 61
  else if i ≤ 16 then 31
  else 19

/-- Spec §4.3 step 4 (spec-shaped): source word, cycling `(W1, W2, W3, W0)`
over rounds `1..17`. -/
def wSource (w0 w1 w2 w3 : Block) (i : Nat) : Block :=
  match (i - 1) % 4 with
  | 0 => w1
  | 1 => w2
  | 2 => w3
  | _ => w0

/-- Spec §4.3 step 4 (spec-shaped): partner word, cycling `(W0, W1, W2, W3)`. -/
def wPartner (w0 w1 w2 w3 : Block) (i : Nat) : Block :=
  match (i - 1) % 4 with
  | 0 => w0
  | 1 => w1
  | 2 => w2
  | _ => w3

/-- Spec §4.3 step 1 (spec-shaped): the constant triple per key length. -/
def specCK (keyLen : Nat) : Block × Block × Block :=
  if keyLen = 16 then (ckBlock 0, ckBlock 4, ckBlock 8)
  else if keyLen = 24 then (ckBlock 4, ckBlock 8, ckBlock 0)
  else (ckBlock 8, ckBlock 0, ckBlock 4)

/-- Spec §4.3 step 2 (spec-shaped): `KL = K[0..16]`. -/
def specKL (key : List Nat) : Block :=
  ⟨load32BE key 0, load32BE key 4, load32BE key 8, load32BE key 12⟩

/-- Spec §4.3 step 2 (spec-shaped): `KR = K[16..keyLen]` zero-padded (the
big-endian loads read 0 past the end of the key). -/
def specKR (key : List Nat) : Block :=
  ⟨load32BE key 16, load32BE key 20, load32BE key 24, load32BE key 28⟩

/-- Spec §4.3 step 3 (spec-shaped): `W1 = OF(W0, CK1) XOR KR`. -/
def specW1 (key : List Nat) (keyLen : Nat) : Block :=
  xor128 (OF (specKL key) (specCK keyLen).1) (specKR key)

/-- Spec §4.3 step 3 (spec-shaped): `W2 = EF(W1, CK2) XOR W0`. -/
def specW2 (key : List Nat) (keyLen : Nat) : Block :=
  xor128 (EF (specW1 key keyLen) (specCK keyLen).2.1) (specKL key)

/-- Spec §4.3 step 3 (spec-shaped): `W3 = OF(W2, CK3) XOR W1`. -/
def specW3 (key : List Nat) (keyLen : Nat) : Block :=
  xor128 (OF (specW2 key keyLen) (specCK keyLen).2.2) (specW1 key keyLen)

/-- Spec §4.3 step 4 (spec-shaped): the 17 encryption round keys, round `i`
being the source word rotated left by the per-group amount XORed with the
partner word. -/
def specRoundKeys (key : List Nat) (keyLen : Nat) : List Block :=
  (List.range 17).map fun j =>
    xor128
      (rol128
        (wSource (specKL key) (specW1 key keyLen) (specW2 key keyLen)
          (specW3 key keyLen) (j + 1))
        (rotAmount (j + 1)))
      (wPartner (specKL key) (specW1 key keyLen) (specW2 key keyLen)
        (specW3 key keyLen) (j + 1))

theorem specRoundKeys_explicit (key : List Nat) (keyLen : Nat) :
    specRoundKeys key keyLen =
      [xor128 (rol128 (specW1 key keyLen) 109) (specKL key),
       xor128 (rol128 (specW2 key keyLen) 109) (specW1 key keyLen),
       xor128 (rol128 (specW3 key keyLen) 109) (specW2 key keyLen),
       xor128 (rol128 (specKL key) 109) (specW3 key keyLen),
       xor128 (rol128 (specW1 key keyLen) 97) (specKL key),
       xor128 (rol128 (specW2 key keyLen) 97) (specW1 key keyLen),
       xor128 (rol128 (specW3 key keyLen) 97) (specW2 key keyLen),
       xor128 (rol128 (specKL key) 97) (specW3 key keyLen),
       xor128 (rol128 (specW1 key keyLen) 61) (specKL key),
       xor128 (rol128 (specW2 key keyLen) 61) (specW1 key keyLen),
       xor128 (rol128 (specW3 key keyLen) 61) (specW2 key keyLen),
       xor128 (rol128 (specKL key) 61) (specW3 key keyLen),
       xor128 (rol128 (specW1 key keyLen) 31) (specKL key),
       xor128 (rol128 (specW2 key keyLen) 31) (specW1 key keyLen),
       xor128 (rol128 (specW3 key keyLen) 31) (specW2 key keyLen),
       xor128 (rol128 (specKL key) 31) (specW3 key keyLen),
       xor128 (rol128 (specW1 key keyLen) 19) (specKL key)] := rfl

theorem load32BE_of_len_le {key : List Nat} {off : Nat}
    (h : key.length ≤ off) : load32BE key off = 0 := by
  unfold load32BE
  rw [List.getD_eq_getElem?_getD, List.getElem?_eq_none (by omega)]
  rw [List.getD_eq_getElem?_getD, List.getElem?_eq_none (by omega)]
  rw [List.getD_eq_getElem?_getD, List.getElem?_eq_none (by omega)]
  rw [List.getD_eq_getElem?_getD, List.getElem?_eq_none (by omega)]
  rfl

/-- C3: for every valid master key, the encryption round-key table produced
by `ariaInit` equals the spec-shaped schedule: intermediates
`W0 = KL`, `W1 = OF(W0, CK1) XOR KR`, `W2 = EF(W1, CK2) XOR W0`,
`W3 = OF(W2, CK3) XOR W1`, and round key `i` (for `i = 1..17`) the cycling
source word rotated left by 109/97/61/31/19 bits XORed with the cycling
partner word. -/
theorem ek_matches_spec (key : List Nat) (keyLen : Nat)
    (hlen : key.length = keyLen) (ctx : AriaContext)
    (hinit : ariaInit false false key keyLen = Except.ok ctx) :
    ctx.ek = specRoundKeys key keyLen := by
  by_cases h16 : keyLen = 16
  · subst h16
    rw [ariaInit_16] at hinit
    injection hinit with hctx
    subst hctx
    rw [keySetup_ek]
    have hKR : ariaKR key 16 = specKR key := by
      refine Block.ext ?_ ?_ ?_ ?_
      · show wldKey key 16 4 = load32BE key 16
        rw [load32BE_of_len_le (show key.length ≤ 16 by omega)]
        rfl
      · show wldKey key 16 5 = load32BE key 20
        rw [load32BE_of_len_le (show key.length ≤ 20 by omega)]
        rfl
      · show wldKey key 16 6 = load32BE key 24
        rw [load32BE_of_len_le (show key.length ≤ 24 by omega)]
        rfl
      · show wldKey key 16 7 = load32BE key 28
        rw [load32BE_of_len_le (show key.length ≤ 28 by omega)]
        rfl
    have hW1 : ariaW1 key 16 (ckBlock 0) = specW1 key 16 := by
      unfold ariaW1 specW1
      rw [hKR]
      rfl
    have hW2 : ariaW2 key 16 (ckBlock 0) (ckBlock 4) = specW2 key 16 := by
      unfold ariaW2 specW2
      rw [hW1]
      rfl
    have hW3 : ariaW3 key 16 (ckBlock 0) (ckBlock 4) (ckBlock 8) =
        specW3 key 16 := by
      unfold ariaW3 specW3
      rw [hW1, hW2]
      rfl
    rw [specRoundKeys_explicit]
    simp only [ariaEk]
    rw [hW1, hW2, hW3, show ariaKL key 16 = specKL key from rfl]
  by_cases h24 : keyLen = 24
  · subst h24
    rw [ariaInit_24] at hinit
    injection hinit with hctx
    subst hctx
    rw [keySetup_ek]
    have hKR : ariaKR key 24 = specKR key := by
      refine Block.ext ?_ ?_ ?_ ?_
      · rfl
      · rfl
      · show wldKey key 24 6 = load32BE key 24
        rw [load32BE_of_len_le (show key.length ≤ 24 by omega)]
        rfl
      · show wldKey key 24 7 = load32BE key 28
        rw [load32BE_of_len_le (show key.length ≤ 28 by omega)]
        rfl
    have hW1 : ariaW1 key 24 (ckBlock 4) = specW1 key 24 := by
      unfold ariaW1 specW1
      rw [hKR]
      rfl
    have hW2 : ariaW2 key 24 (ckBlock 4) (ckBlock 8) = specW2 key 24 := by
      unfold ariaW2 specW2
      rw [hW1]
      rfl
    have hW3 : ariaW3 key 24 (ckBlock 4) (ckBlock 8) (ckBlock 0) =
        specW3 key 24 := by
      unfold ariaW3 specW3
      rw [hW1, hW2]
      rfl
    rw [specRoundKeys_explicit]
    simp only [ariaEk]
    rw [hW1, hW2, hW3, show ariaKL key 24 = specKL key from rfl]
  by_cases h32 : keyLen = 32
  · subst h32
    rw [ariaInit_32] at hinit
    injection hinit with hctx
    subst hctx
    rw [keySetup_ek]
    have hKR : ariaKR key 32 = specKR key := by
      refine Block.ext ?_ ?_ ?_ ?_
      · rfl
      · rfl
      · rfl
      · rfl
    have hW1 : ariaW1 key 32 (ckBlock 8) = specW1 key 32 := by
      unfold ariaW1 specW1
      rw [hKR]
      rfl
    have hW2 : ariaW2 key 32 (ckBlock 8) (ckBlock 0) = specW2 key 32 := by
      unfold ariaW2 specW2
      rw [hW1]
      rfl
    have hW3 : ariaW3 key 32 (ckBlock 8) (ckBlock 0) (ckBlock 4) =
        specW3 key 32 := by
      unfold ariaW3 specW3
      rw [hW1, hW2]
      rfl
    rw [specRoundKeys_explicit]
    simp only [ariaEk]
    rw [hW1, hW2, hW3, show ariaKL key 32 = specKL key from rfl]
  · rw [ariaInit_bad key keyLen h16 h24 h32] at hinit
    simp at hinit

/-- C3 witness: the schedule refinement evaluated on the RFC 128-bit key. -/
theorem ek_matches_spec_witness :
    rfcKey128.length = 16 ∧ ctx16r.ek = specRoundKeys rfcKey128 16 :=
  ⟨by decide,
   ek_matches_spec rfcKey128 16 (by decide) ctx16r (ariaInit_16 rfcKey128)⟩

/-- Spec §4.4 (spec-shaped): apply `nr - 1` alternating full rounds (odd
rounds `OF`, even rounds `EF`, round `i` using `RK[i-1]`), then the
abbreviated final round `SL2(S XOR RK[nr-1]) XOR RK[nr]` with no diffusion
layer. -/
def blockTransformSpec (rk : List Block) (nr : Nat) (input : List Nat) :
    List Nat :=
  let s := (List.range (nr - 1)).foldl
    (fun s i =>
      if (i + 1) % 2 = 1 then OF s (rk.getD i default)
      else EF s (rk.getD i default))
    (loadBlock input)
  storeBlock
    (xor128 (SL2 (xor128 s (rk.getD (nr - 1) default))) (rk.getD nr default))

/-- C4: for every successfully initialised context, `ariaEncryptBlock` is
exactly the spec-shaped transform (alternating `OF`/`EF` rounds, abbreviated
final round without the diffusion layer) over `ek`, and `ariaDecryptBlock`
is the identical structure over `dk`. -/
theorem block_transform_structure (key : List Nat) (keyLen : Nat)
    (ctx : AriaContext)
    (hinit : ariaInit false false key keyLen = Except.ok ctx)
    (input : List Nat) :
    ariaEncryptBlock ctx input = blockTransformSpec ctx.ek ctx.nr input ∧
      ariaDecryptBlock ctx input = blockTransformSpec ctx.dk ctx.nr input := by
  by_cases h16 : keyLen = 16
  · subst h16
    rw [ariaInit_16] at hinit
    injection hinit with hctx
    subst hctx
    exact ⟨rfl, rfl⟩
  by_cases h24 : keyLen = 24
  · subst h24
    rw [ariaInit_24] at hinit
    injection hinit with hctx
    subst hctx
    exact ⟨rfl, rfl⟩
  by_cases h32 : keyLen = 32
  · subst h32
    rw [ariaInit_32] at hinit
    injection hinit with hctx
    subst hctx
    exact ⟨rfl, rfl⟩
  · rw [ariaInit_bad key keyLen h16 h24 h32] at hinit
    simp at hinit

/-- C4 witness: the structural refinement evaluated on the RFC context and
plaintext. -/
theorem block_transform_structure_witness :
    ariaEncryptBlock ctx16r rfcPlain =
      blockTransformSpec ctx16r.ek ctx16r.nr rfcPlain ∧
    ariaDecryptBlock ctx16r rfcPlain =
      blockTransformSpec ctx16r.dk ctx16r.nr rfcPlain :=
  block_transform_structure rfcKey128 16 ctx16r (ariaInit_16 rfcKey128) rfcPlain

end Aria
